import Mathlib

/-!
Verification of the Excel-to-Markdown conversion core.

This file gives a shallow embedding, in Lean 4, of the conversion pipeline
implemented in `src/converter/` (table_parser.py, sheet_parser.py,
image_parser.py, markdown_generator.py, metadata_generator.py, core.py) and
proves or refutes the specified behavioural properties against it.

Modelling conventions:
* Python numbers are modelled exactly: `int` as `Int`/`Nat`, `float` as `Rat`
  (IEEE-754 rounding is not modelled; every concrete input used in a theorem
  below was checked by hand to behave identically under binary64 arithmetic).
* Python strings are Lean `String`s; `str.lower` / `str.isalnum` are modelled
  by `Char.toLower` / `Char.isAlphanum`, which agree with CPython on ASCII.
  No theorem below depends on their behaviour outside ASCII except through
  both sides of an equation using the same model function.
* `datetime.datetime` values are modelled as a civil day number (days since
  1970-01-01, proleptic Gregorian, as CPython's `datetime` implements) plus
  seconds-of-day.
* Runtime exceptions raised by library calls are modelled with `Except`
  where the source catches them (`SheetParser.parse_sheet`).
-/

namespace ExcelToMd

/-- Model of `str.join` of CPython: `sep.join(parts)`. -/
def pyJoin (sep : String) : List String → String
  | [] => ""
  | x :: xs => xs.foldl (fun acc y => acc ++ sep ++ y) x

/-- Model of `str.lower` (ASCII model of CPython's Unicode lowercasing). -/
def lowerStr (s : String) : String := String.mk (s.toList.map Char.toLower)

/-- One replacement pass for `str.replace(pat, rep)` (left-to-right,
non-overlapping, `pat` nonempty in every use), fuelled by the input
length. -/
def strReplaceAux (pat rep : List Char) : ℕ → List Char → List Char
  | 0, l => l
  | _ + 1, [] => []
  | fuel + 1, c :: t =>
    if pat.isPrefixOf (c :: t) then
      rep ++ strReplaceAux pat rep fuel ((c :: t).drop pat.length)
    else c :: strReplaceAux pat rep fuel t

/-- Model of `s.replace(pat, rep)` for a nonempty `pat`. -/
def strReplace (s pat rep : String) : String :=
  String.mk (strReplaceAux pat.toList rep.toList s.toList.length s.toList)

/-- Model of `s.split(c)` on a single-character separator. -/
def splitOnChar (c : Char) : List Char → List (List Char)
  | [] => [[]]
  | x :: t =>
    match splitOnChar c t with
    | [] => [[]]
    | h :: r => if x = c then [] :: h :: r else (x :: h) :: r

/-- Characters CPython's `str.strip()` removes (ASCII whitespace; the
Unicode-only whitespace code points are not modelled). -/
def isStripChar (c : Char) : Bool :=
  c = ' ' || c = Char.ofNat 9 || c = Char.ofNat 10 || c = Char.ofNat 13 ||
  c = Char.ofNat 11 || c = Char.ofNat 12

/-- Model of `str.strip()` on a character list. -/
def pyStripList (l : List Char) : List Char :=
  ((l.dropWhile isStripChar).reverse.dropWhile isStripChar).reverse

/-- Model of `str.strip()`. -/
def pyStrip (s : String) : String := String.mk (pyStripList s.toList)

/-- Substring test on character lists: `pat in hay` for CPython strings. -/
def listContainsSub : List Char → List Char → Bool
  | hay, pat =>
    match hay with
    | [] => pat.isEmpty
    | _ :: t => pat.isPrefixOf hay || listContainsSub t pat

/-- Model of `pat in s` for CPython strings. -/
def containsSub (s pat : String) : Bool := listContainsSub s.toList pat.toList

/-- Model of `c in s` for a single character. -/
def containsChar (s : String) (c : Char) : Bool := s.toList.contains c

/-- Decimal digits of a natural number (most significant first). -/
def natDigits (fuel n : ℕ) : List Char :=
  match fuel with
  | 0 => []
  | fuel + 1 =>
    if n < 10 then [Char.ofNat (48 + n)]
    else natDigits fuel (n / 10) ++ [Char.ofNat (48 + n % 10)]

/-- Decimal rendering of a natural number (CPython's `str` on nonnegative `int`). -/
def natStr (n : ℕ) : String := String.mk (natDigits (n + 1) n)

/-- Decimal rendering of an integer (CPython's `str` on `int`). -/
def intStr (z : ℤ) : String :=
  if z < 0 then "-" ++ natStr z.natAbs else natStr z.natAbs

/-- Two-digit zero padding, as in `strftime` field `%m` / `%d`. -/
def pad2 (n : ℕ) : String := if n < 10 then "0" ++ natStr n else natStr n

/-- Model of `openpyxl.utils.get_column_letter`, fuelled recursion on the
bijective base-26 column numbering (1 ↦ A, 26 ↦ Z, 27 ↦ AA). -/
def colLettersAux : ℕ → ℕ → String
  | 0, _ => ""
  | fuel + 1, n =>
    if n = 0 then ""
    else colLettersAux fuel ((n - 1) / 26) ++
      String.singleton (Char.ofNat (65 + (n - 1) % 26))

/-- Model of `openpyxl.utils.get_column_letter`. -/
def get_column_letter (n : ℕ) : String := colLettersAux n n

/-- Column letters back to a 1-based column index. -/
def colValue (l : List Char) : ℕ :=
  l.foldl (fun acc c => acc * 26 + (c.toNat - 64)) 0

/-- Digits to a natural number. -/
def natOfDigits (l : List Char) : ℕ :=
  l.foldl (fun acc c => acc * 10 + (c.toNat - 48)) 0

/-- Parse a cell address such as `D10` into (column, row); `none` when the
text is not letters-then-digits (openpyxl would raise, which the caller
catches). -/
def parseCellAddr (l : List Char) : Option (ℕ × ℕ) :=
  let letters := l.takeWhile Char.isUpper
  let rest := l.drop letters.length
  let digits := rest.takeWhile Char.isDigit
  if letters.isEmpty || digits.isEmpty || digits.length ≠ rest.length then none
  else some (colValue letters, natOfDigits digits)

/-- Parse a rectangular range string `A1:D10` into
`(minCol, minRow, maxCol, maxRow)`.  A single-cell string (no colon) yields
`none`: `sheet[addr]` then returns a lone cell over which the source's
row iteration raises, which `convert_range_to_markdown` catches. -/
def parseRange (s : String) : Option (ℕ × ℕ × ℕ × ℕ) :=
  match splitOnChar (':') s.toList with
  | [a, b] =>
    match parseCellAddr a, parseCellAddr b with
    | some (c1, r1), some (c2, r2) => some (c1, r1, c2, r2)
    | _, _ => none
  | _ => none

/-! ### Civil calendar arithmetic

Day numbers are days since 1970-01-01 in the proleptic Gregorian calendar,
exactly the calendar CPython's `datetime` uses.  The two conversions follow
the standard civil-from-days / days-from-civil algorithms. -/

/-- Day number of a civil date (year, month 1-12, day 1-31). -/
def daysFromCivil (y : ℤ) (m d : ℕ) : ℤ :=
  let y' : ℤ := if m ≤ 2 then y - 1 else y
  let era : ℤ := Int.fdiv y' 400
  let yoe : ℕ := (y' - era * 400).toNat
  let mp : ℕ := if 2 < m then m - 3 else m + 9
  let doy : ℕ := (153 * mp + 2) / 5 + d - 1
  let doe : ℕ := yoe * 365 + yoe / 4 - yoe / 100 + doy
  era * 146097 + (doe : ℤ) - 719468

/-- Civil date (year, month, day) of a day number. -/
def civilFromDays (z0 : ℤ) : ℤ × ℕ × ℕ :=
  let z : ℤ := z0 + 719468
  let era : ℤ := Int.fdiv z 146097
  let doe : ℕ := (z - era * 146097).toNat
  let yoe : ℕ := (doe - doe / 1460 + doe / 36524 - doe / 146096) / 365
  let doy : ℕ := doe - (365 * yoe + yoe / 4 - yoe / 100)
  let mp : ℕ := (5 * doy + 2) / 153
  let d : ℕ := doy - (153 * mp + 2) / 5 + 1
  let m : ℕ := if mp < 10 then mp + 3 else mp - 9
  (if m ≤ 2 then (yoe : ℤ) + era * 400 + 1 else (yoe : ℤ) + era * 400, m, d)

/-! ### Cell values -/

/-- Fractional decimal digits of a rational in `[0,1)`, up to `fuel` digits. -/
def fracDigits : ℕ → ℚ → List Char
  | 0, _ => []
  | fuel + 1, x =>
    if x = 0 then []
    else
      let x10 := x * 10
      Char.ofNat (48 + x10.floor.toNat) :: fracDigits fuel (x10 - x10.floor)

/-- Approximate model of CPython's `float` repr (the shortest round-trip
rendering is not reproduced; no theorem depends on this rendering). -/
def floatStr (q : ℚ) : String :=
  let sgn := if q < 0 then "-" else ""
  let a := |q|
  let ds := fracDigits 17 (a - a.floor)
  sgn ++ natStr a.floor.toNat ++ "." ++ (if ds.isEmpty then "0" else String.mk ds)

/-- A raw cell value as openpyxl surfaces it: `None`, `str`, `int`, `float`,
`bool`, or `datetime.datetime` (modelled as day number plus seconds-of-day). -/
inductive CellVal where
  | null
  | str (s : String)
  | int (n : ℤ)
  | float (q : ℚ)
  | bool (b : Bool)
  | dt (days : ℤ) (secs : ℕ)
deriving DecidableEq, Repr

/-- Model of `str(dt)` for a modelled datetime: `YYYY-MM-DD HH:MM:SS`. -/
def dtStr (days : ℤ) (secs : ℕ) : String :=
  let c := civilFromDays days
  intStr c.1 ++ "-" ++ pad2 c.2.1 ++ "-" ++ pad2 c.2.2 ++ " " ++
    pad2 (secs / 3600) ++ ":" ++ pad2 (secs % 3600 / 60) ++ ":" ++ pad2 (secs % 60)

/-- CPython `str(value)` on a cell value. -/
def pyStr : CellVal → String
  | .null => "None"
  | .str s => s
  | .int n => intStr n
  | .float q => floatStr q
  | .bool b => if b then "True" else "False"
  | .dt days secs => dtStr days secs

/-- Model of `isinstance(value, (int, float))` view: the numeric content of a value.
CPython's `bool` is a subclass of `int`, so booleans count as 1 / 0 here. -/
def numericVal : CellVal → Option ℚ
  | .int n => some (n : ℚ)
  | .float q => some q
  | .bool b => some (if b then 1 else 0)
  | _ => none

/-- Blankness test used throughout `table_parser.py`:
`cell_value is None or str(cell_value).strip() == ""` (the negation of the
source's non-blank test). -/
def isBlankVal (v : CellVal) : Bool :=
  match v with
  | .null => true
  | v => pyStrip (pyStr v) = ""

/-! ### Shapes and cells -/

/-- A drawn shape as exposed by openpyxl's `_drawing` object model:
an optional `nvSpPr.cNvPr.name` and the `txBody` paragraphs, each a list of
runs whose text node `r.t` may be absent. -/
structure ShapeModel where
  name : Option String := none
  paragraphs : List (List (Option String)) := []
deriving DecidableEq, Repr

/-- One drawing anchor: an optional standalone shape `sp`, the member shapes
of an optional shape group `grpSp`, and the `_from` cell position. -/
structure AnchorModel where
  sp : Option ShapeModel := none
  grpSp : List ShapeModel := []
  fromCol : Option ℕ := none
  fromRow : Option ℕ := none
deriving DecidableEq, Repr

/-- Model of `sheet._drawing`: the three anchor collections. -/
structure DrawingModel where
  twoCellAnchor : List AnchorModel := []
  oneCellAnchor : List AnchorModel := []
  absoluteAnchor : List AnchorModel := []
deriving DecidableEq, Repr

/-- One worksheet cell: raw value, openpyxl `data_type` tag (`"f"` marks a
formula cell), display format string, built-in format id `_style.numFmtId`,
openpyxl's `is_date` flag, and an optional comment `(text, author)`.
An untouched cell defaults to `None` / `"n"` / `"General"`. -/
structure Cell where
  value : CellVal := .null
  dataType : String := "n"
  numberFormat : String := "General"
  numFmtId : ℕ := 0
  isDate : Bool := false
  comment : Option (String × Option String) := none
deriving DecidableEq, Repr

/-- A worksheet: title, `sheet_properties.sheetId`, visibility state, the
used range's top-left corner, the used-range cells row by row, the declared
table objects (name, range) in declaration order, and the drawing part. -/
structure SheetModel where
  title : String := "Sheet1"
  sheetId : ℕ := 1
  sheetState : String := "visible"
  minRow : ℕ := 1
  minCol : ℕ := 1
  rows : List (List Cell) := []
  tables : List (String × String) := []
  drawing : Option DrawingModel := none
  images : List (Option String) := []
deriving DecidableEq, Repr

/-- Model of `sheet.max_row` (1 for an empty sheet, as in openpyxl). -/
def SheetModel.maxRow (s : SheetModel) : ℕ :=
  if s.rows.isEmpty then s.minRow else s.minRow + s.rows.length - 1

/-- Width of the used column span. -/
def SheetModel.width (s : SheetModel) : ℕ :=
  (s.rows.map List.length).foldr max 0

/-- Model of `sheet.max_column`. -/
def SheetModel.maxCol (s : SheetModel) : ℕ :=
  if s.width = 0 then s.minCol else s.minCol + s.width - 1

/-- Model of `sheet.dimensions` (`"A1:A1"` for an empty sheet, as in openpyxl). -/
def SheetModel.dimensions (s : SheetModel) : String :=
  if s.rows.isEmpty then "A1:A1"
  else get_column_letter s.minCol ++ natStr s.minRow ++ ":" ++
       get_column_letter s.maxCol ++ natStr s.maxRow

/-- Model of `sheet.cell(row, col)` (1-indexed); untouched coordinates give the
default empty cell, as openpyxl materialises them. -/
def SheetModel.cellAt (s : SheetModel) (r c : ℕ) : Cell :=
  if s.minRow ≤ r ∧ s.minCol ≤ c then
    (((s.rows.get? (r - s.minRow)).getD []).get? (c - s.minCol)).getD {}
  else {}

/-! ### `TableParser._is_date_format`, `_convert_excel_date`,
`_format_cell_value` (table_parser.py) -/

/-- The built-in date/time format ids listed in `_is_date_format`:
14-22, 27-36, 45-47, 50-58. -/
def dateFormatIds : List ℕ :=
  List.range' 14 9 ++ List.range' 27 10 ++ List.range' 45 3 ++ List.range' 50 9

/-- Model of `TableParser._is_date_format(cell, value)` for a numeric `value`. -/
def is_date_format (cell : Cell) (v : ℚ) : Bool :=
  if v < 0 || 73050 < v then false
  else if dateFormatIds.contains cell.numFmtId then true
  else
    let step2 : Option Bool :=
      if cell.numberFormat ≠ "" then
        let fmt := cell.numberFormat
        let low := lowerStr fmt
        let hasKw := containsSub low ("yy") || containsSub low ("mm") ||
          containsSub low ("dd") || containsSub low ("yyyy") ||
          containsSub low ("mmmm") || containsSub low ("mmmmm")
        let hasJp := containsSub fmt ("年") || containsSub fmt ("月") ||
          containsSub fmt ("日")
        if hasKw || hasJp then
          if containsChar fmt (':') && containsSub low ("m") then
            if hasJp || containsSub low ("yy") || containsSub low ("dd") then
              some true
            else some false
          else some true
        else none
      else none
    match step2 with
    | some b => b
    | none => cell.isDate

/-- Model of `TableParser._convert_excel_date(value)`: the serial-to-datetime
conversion, returned as (day number, seconds-of-day).
Branches exactly as the source: serials above 59 are offset from
1899-12-30, serials in [1, 59] from 1899-12-31, smaller values from
1900-01-01. -/
def convert_excel_date (v : ℚ) : ℤ × ℕ :=
  let secs : ℕ := ((v - v.floor) * 86400).floor.toNat
  if 59 < v then (daysFromCivil 1899 12 30 + v.floor, secs)
  else if 1 ≤ v then (daysFromCivil 1899 12 31 + v.floor, secs)
  else (daysFromCivil 1900 1 1 + v.floor, secs)

/-- Model of `strftime('%Y年%m月%d日')`. -/
def strftimeDate (d : ℤ × ℕ) : String :=
  let c := civilFromDays d.1
  intStr c.1 ++ "年" ++ pad2 c.2.1 ++ "月" ++ pad2 c.2.2 ++ "日"

/-- Model of `strftime('%Y年%m月%d日 %H:%M:%S')`. -/
def strftimeDateTime (d : ℤ × ℕ) : String :=
  strftimeDate d ++ " " ++ pad2 (d.2 / 3600) ++ ":" ++ pad2 (d.2 % 3600 / 60) ++
    ":" ++ pad2 (d.2 % 60)

/-- Round half to even, as CPython's fixed-point float formatting does
(ties on the exact rational stand in for ties on the binary64 value). -/
def roundHalfEven (x : ℚ) : ℤ :=
  let f := x.floor
  let r := x - f
  if r < 1/2 then f
  else if 1/2 < r then f + 1
  else if 2 ∣ f then f else f + 1

/-- Zero-padded decimal rendering of `m` to width `w`. -/
def padZeros (w m : ℕ) : String :=
  let s := natStr m
  String.mk (List.replicate (w - s.length) ('0')) ++ s

/-- Model of `'{:.Nf}'.format(q)`. -/
def fmtFixed (q : ℚ) (places : ℕ) : String :=
  let sgn := if q < 0 then "-" else ""
  let n := (roundHalfEven (|q| * 10 ^ places)).toNat
  if places = 0 then sgn ++ natStr n
  else sgn ++ natStr (n / 10 ^ places) ++ "." ++ padZeros places (n % 10 ^ places)

/-- Group a digit list with thousands separators. -/
def group3 : ℕ → List Char → List Char
  | 0, l => l
  | fuel + 1, l =>
    if l.length ≤ 3 then l
    else group3 fuel (l.take (l.length - 3)) ++ (',') :: l.drop (l.length - 3)

/-- Model of `'{:,.Nf}'.format(q)`: fixed-point with thousands separators. -/
def fmtThousands (q : ℚ) (places : ℕ) : String :=
  let sgn := if q < 0 then "-" else ""
  let n := (roundHalfEven (|q| * 10 ^ places)).toNat
  let ip := n / 10 ^ places
  let ipStr := String.mk (group3 (natStr ip).length (natStr ip).toList)
  if places = 0 then sgn ++ ipStr
  else sgn ++ ipStr ++ "." ++ padZeros places (n % 10 ^ places)

/-- Model of `TableParser._format_cell_value(value, cell)`: the cell value
normalizer.  Returns the formatted value (a string when a format applied,
the original value otherwise), exactly following the source's branch
structure: datetime values, then numeric values (date serial, percentage,
currency, thousands/fixed-decimal), else the value unchanged. -/
def format_cell_value (value : CellVal) (cell : Cell) : CellVal :=
  match value with
  | .dt days secs =>
    if cell.numberFormat ≠ "" then
      let low := lowerStr cell.numberFormat
      if (containsSub low ("yy") || containsSub low ("mm") ||
          containsSub low ("dd")) && !containsSub low ("h") then
        .str (strftimeDate (days, secs))
      else if containsSub low ("h") || containsSub low ("m") ||
          containsSub low ("s") then
        .str (strftimeDateTime (days, secs))
      else .str (strftimeDate (days, secs))
    else .str (strftimeDate (days, secs))
  | _ =>
    match numericVal value with
    | none => value
    | some q =>
      if is_date_format cell q then
        -- the ValueError/OverflowError fallback cannot trigger on the
        -- accepted serial range [0, 73050], so it is not modelled
        let d := convert_excel_date q
        let fmt := if cell.numberFormat ≠ "" then cell.numberFormat else ""
        let low := lowerStr fmt
        let hasTime := containsSub low ("h") ||
          (containsSub low ("m") && containsChar fmt (':')) ||
          containsSub fmt ("時") || containsSub fmt ("分") || containsSub fmt ("秒")
        if hasTime then .str (strftimeDateTime d) else .str (strftimeDate d)
      else if cell.numberFormat ≠ "" then
        let fmt := cell.numberFormat
        if containsChar fmt ('%') then .str (fmtFixed (q * 100) 2 ++ "%")
        else if containsChar fmt ('¥') || containsSub fmt ("円") then
          .str ("¥" ++ fmtThousands q 0)
        else if containsSub fmt ("#,##0") || containsSub fmt ("0.00") then
          if containsChar fmt ('.') then
            let dp : ℤ := (fmt.toList.count ('0') : ℤ) -
              (fmt.toList.indexOf ('.') : ℤ) - 1
            -- a negative precision raises inside the branch's try/except,
            -- which falls through to returning the value unchanged
            if dp < 0 then value else .str (fmtThousands q dp.toNat)
          else .str (fmtThousands q 0)
        else value
      else value

/-! ### Configuration (core.py `self.config`, with the defaults each
component's `config.get` call supplies) -/

structure Config where
  chunkSize : ℕ := 800
  createToc : Bool := true
  extractImages : Bool := true
  generateSummary : Bool := false
  showFormulas : Bool := true
  detectHeader : Bool := true
  includeHidden : Bool := false
  outputDir : String := "images"
  imageFormat : String := "png"
deriving DecidableEq, Repr

/-! ### `TableParser._detect_tables_by_blank_rows` -/

/-- The used column indices of a sheet. -/
def SheetModel.colRange (s : SheetModel) : List ℕ :=
  List.range' s.minCol (s.maxCol - s.minCol + 1)

/-- The used row indices of a sheet. -/
def SheetModel.rowRange (s : SheetModel) : List ℕ :=
  List.range' s.minRow (s.maxRow - s.minRow + 1)

/-- Row blankness as the detector computes it: no cell in the used column
span has a value that is non-null with non-empty stripped text. -/
def rowIsBlank (s : SheetModel) (r : ℕ) : Bool :=
  s.colRange.all (fun c => isBlankVal (s.cellAt r c).value)

/-- Coordinates of `sheet[rng]`, row by row. -/
def rangeCoords (rng : String) : List (List (ℕ × ℕ)) :=
  match parseRange rng with
  | none => []
  | some (c1, r1, c2, r2) =>
    (List.range' r1 (r2 - r1 + 1)).map fun r =>
      (List.range' c1 (c2 - c1 + 1)).map fun c => (r, c)

/-- The `has_data` scan over one candidate range. -/
def rangeHasData (s : SheetModel) (rng : String) : Bool :=
  (rangeCoords rng).any fun row => row.any fun p => !isBlankVal (s.cellAt p.1 p.2).value

/-- Model of `TableParser._detect_tables_by_blank_rows(sheet)`: split the used range
at blank rows into candidate ranges, keep those with data, and fall back to
the whole used range when nothing remains. -/
def detect_tables_by_blank_rows (sheet : SheetModel) : List String :=
  if sheet.dimensions = "A1:A1" then []
  else
    let blankRows := sheet.rowRange.filter (rowIsBlank sheet)
    if blankRows.isEmpty then [sheet.dimensions]
    else
      let step := fun (acc : List String × ℕ) (blankRow : ℕ) =>
        if acc.2 < blankRow then
          (acc.1 ++ [get_column_letter sheet.minCol ++ natStr acc.2 ++ ":" ++
                     get_column_letter sheet.maxCol ++ natStr (blankRow - 1)],
           blankRow + 1)
        else (acc.1, blankRow + 1)
      let folded := blankRows.foldl step ([], sheet.minRow)
      let tableRanges :=
        if folded.2 ≤ sheet.maxRow then
          folded.1 ++ [get_column_letter sheet.minCol ++ natStr folded.2 ++ ":" ++
                       get_column_letter sheet.maxCol ++ natStr sheet.maxRow]
        else folded.1
      let validRanges := tableRanges.filter (rangeHasData sheet)
      if validRanges.isEmpty then [sheet.dimensions] else validRanges

/-! ### `TableParser.convert_range_to_markdown` -/

/-- Line-break escaping applied per cell:
`str(value).replace('\n', '<br>').replace('\r', '')`. -/
def escapeCellText (s : String) : String :=
  strReplace (strReplace s ("\n") ("<br>")) ("\r") ("")

/-- The string a cell contributes to the data grid: the computed-value view
when available, the literal formula text for a formula cell whose computed
value is null, format-code rendering per `_format_cell_value`, and
line-break escaping. -/
def displayedCell (sheet : SheetModel) (sv : Option SheetModel) (r c : ℕ) : String :=
  let cell := sheet.cellAt r c
  let value0 := match sv with
    | some svs => (svs.cellAt r c).value
    | none => cell.value
  let value1 := if cell.dataType = "f" && value0 = CellVal.null then
      CellVal.str (pyStr cell.value)
    else value0
  let value2 := if value1 ≠ CellVal.null && value1 ≠ CellVal.str "" then
      format_cell_value value1 cell
    else value1
  let value3 := if value2 = CellVal.null then CellVal.str "" else value2
  escapeCellText (pyStr value3)

/-- Model of `cell.coordinate` of (column, row), e.g. `B3`. -/
def coordStr (c r : ℕ) : String := get_column_letter c ++ natStr r

/-- The formula captured for a cell, when `cell.data_type == 'f'`. -/
def capturedFormula (sheet : SheetModel) (r c : ℕ) : Option (String × String) :=
  if (sheet.cellAt r c).dataType = "f" then
    some (coordStr c r, pyStr (sheet.cellAt r c).value)
  else none

/-- The `data` grid built from a rectangular range. -/
def buildData (sheet : SheetModel) (sv : Option SheetModel)
    (r1 c1 r2 c2 : ℕ) : List (List String) :=
  (List.range' r1 (r2 - r1 + 1)).map fun r =>
    (List.range' c1 (c2 - c1 + 1)).map fun c => displayedCell sheet sv r c

/-- The `formulas` mapping `(row_idx, col_idx) ↦ (coordinate, formula)`,
built in row-major order (which is exactly the sorted key order the
notes generator later uses). -/
def buildFormulas (sheet : SheetModel) (r1 c1 r2 c2 : ℕ) :
    List ((ℕ × ℕ) × (String × String)) :=
  (List.range (r2 - r1 + 1)).flatMap fun ri =>
    (List.range (c2 - c1 + 1)).filterMap fun ci =>
      (capturedFormula sheet (r1 + ri) (c1 + ci)).map fun f => ((ri, ci), f)

/-- Model of `df.replace('', None)`. -/
def toOptGrid (data : List (List String)) : List (List (Option String)) :=
  data.map (List.map fun s => if s = "" then none else some s)

/-- Model of `df.dropna(how='all', axis=0)`. -/
def filteredRows (g : List (List (Option String))) : List (List (Option String)) :=
  g.filter fun row => !row.all Option.isNone

/-- The column indices `df.dropna(how='all', axis=1)` keeps, computed on the
row-filtered frame. -/
def keepColIdx (g : List (List (Option String))) (w : ℕ) : List ℕ :=
  (List.range w).filter fun j => g.any fun row => ((row.get? j).getD none).isSome

/-- Column selection plus `fillna('')`. -/
def selectCols (idx : List ℕ) (row : List (Option String)) : List String :=
  idx.map fun j => ((row.get? j).getD none).getD ""

/-- One Markdown table row, `tablefmt='github'` style.  tabulate's cell
padding to the column width is not reproduced (pure layout); no theorem
depends on the serialized table text. -/
def mdRow (cells : List String) : String := "| " ++ pyJoin (" | ") cells ++ " |"

/-- Model of `df.to_markdown(index=False, tablefmt='github')`, modulo padding. -/
def gridToMarkdown (headers : List String) (body : List (List String)) : String :=
  pyJoin ("\n") (mdRow headers :: mdRow (headers.map fun _ => "---") :: body.map mdRow)

/-- Model of `TableParser._generate_formula_notes(formulas)`. -/
def generate_formula_notes (formulas : List ((ℕ × ℕ) × (String × String))) : String :=
  pyJoin ("\n") ("**【数式備考】**" ::
    formulas.map fun e => "- セル " ++ e.2.1 ++ ": `" ++ e.2.2 ++ "`")

/-- Model of `TableParser._generate_table_summary(df)`: on the all-string frames this
pipeline builds, `select_dtypes(include='number')` is always empty, so only
the row count appears. -/
def generate_table_summary (body : List (List String)) : String :=
  "【テーブル要約】 データ行数: " ++ natStr body.length ++ "行"

/-- The data frame after `replace('', None)` and both `dropna` passes. -/
def droppedRows (sheet : SheetModel) (sv : Option SheetModel)
    (r1 c1 r2 c2 : ℕ) : List (List (Option String)) :=
  filteredRows (toOptGrid (buildData sheet sv r1 c1 r2 c2))

/-- The kept column indices for a range. -/
def rangeKeepCols (sheet : SheetModel) (sv : Option SheetModel)
    (r1 c1 r2 c2 : ℕ) : List ℕ :=
  keepColIdx (droppedRows sheet sv r1 c1 r2 c2)
    ((buildData sheet sv r1 c1 r2 c2).headD []).length

/-- The string frame after column selection and `fillna('')`. -/
def cleanedGrid (sheet : SheetModel) (sv : Option SheetModel)
    (r1 c1 r2 c2 : ℕ) : List (List String) :=
  (droppedRows sheet sv r1 c1 r2 c2).map
    (selectCols (rangeKeepCols sheet sv r1 c1 r2 c2))

/-- Header promotion (or positional labels) on the cleaned frame:
the pair (column headers, body rows) the Markdown table serializes. -/
def headerBody (cfg : Config) (g2 : List (List String)) (keepLen : ℕ) :
    List String × List (List String) :=
  if cfg.detectHeader && !g2.isEmpty then (g2.headD [], g2.tail)
  else ((List.range keepLen).map fun i => "Column " ++ natStr (i + 1), g2)

/-- The body of `convert_range_to_markdown` once the range has been
resolved to rectangular bounds: build the data grid, drop all-blank rows
and columns, promote or synthesize headers, serialize, and append formula
notes and the optional summary. -/
def convert_cells (cfg : Config) (sheet : SheetModel) (sv : Option SheetModel)
    (c1 r1 c2 r2 : ℕ) : String :=
  let data := buildData sheet sv r1 c1 r2 c2
  let formulas := buildFormulas sheet r1 c1 r2 c2
  if data.isEmpty then ""
  else
    let g1 := droppedRows sheet sv r1 c1 r2 c2
    let keep := rangeKeepCols sheet sv r1 c1 r2 c2
    if g1.length = 0 || keep.length = 0 then ""
    else
      let g2 := cleanedGrid sheet sv r1 c1 r2 c2
      let hb := headerBody cfg g2 keep.length
      let mdTable0 := gridToMarkdown hb.1 hb.2
      let mdTable1 :=
        if !formulas.isEmpty && cfg.showFormulas then
          mdTable0 ++ "\n\n" ++ generate_formula_notes formulas
        else mdTable0
      if cfg.generateSummary then
        generate_table_summary hb.2 ++ "\n\n" ++ mdTable1
      else mdTable1

/-- Model of `TableParser.convert_range_to_markdown(sheet, cell_range,
sheet_with_values)`.  Any exception (e.g. a malformed range) yields `""`. -/
def convert_range_to_markdown (cfg : Config) (sheet : SheetModel)
    (cellRange : String) (sv : Option SheetModel) : String :=
  match parseRange cellRange with
  | none => ""
  | some (c1, r1, c2, r2) => convert_cells cfg sheet sv c1 r1 c2 r2

/-! ### `TableParser.parse_tables` -/

structure TableInfo where
  name : String
  range : String
  type : String
  markdown : String
deriving DecidableEq, Repr

/-- Model of `TableParser.parse_tables(sheet, sheet_with_values)`: declared table
objects when present, else blank-row auto-detection; a range whose rendering
is empty is silently dropped. -/
def parse_tables (cfg : Config) (sheet : SheetModel) (sv : Option SheetModel) :
    List String × List TableInfo :=
  if !sheet.tables.isEmpty then
    sheet.tables.foldl
      (fun acc t =>
        let md := convert_range_to_markdown cfg sheet t.2 sv
        if md ≠ "" then
          (acc.1 ++ [md], acc.2 ++ [⟨t.1, t.2, "excel_table", md⟩])
        else acc)
      ([], [])
  else if sheet.dimensions ≠ "" && sheet.dimensions ≠ "A1:A1" then
    (detect_tables_by_blank_rows sheet).enum.foldl
      (fun acc p =>
        let md := convert_range_to_markdown cfg sheet p.2 sv
        if md ≠ "" then
          (acc.1 ++ [md],
           acc.2 ++ [⟨"table_" ++ natStr (p.1 + 1), p.2, "auto_detected", md⟩])
        else acc)
      ([], [])
  else ([], [])

/-! ### `ImageParser` (image_parser.py) -/

structure ImageInfo where
  index : ℕ
  filename : String
  path : String
  title : String
deriving DecidableEq, Repr

/-- Model of `ImageParser.extract_images(sheet)`: one saved file and one Markdown
image-reference line per embedded image, threading the instance-level
`image_counter`.  Image decoding/saving failures (I/O) are not modelled;
`generate_image_description` defaults to off and is omitted. -/
def extract_images (cfg : Config) (images : List (Option String))
    (imageCounter : ℕ) : ℕ × List String × List ImageInfo :=
  images.foldl
    (fun acc img =>
      let n := acc.1 + 1
      let filename := "chart_" ++ padZeros 3 n ++ "." ++ cfg.imageFormat
      let path := cfg.outputDir ++ "/" ++ filename
      let title := match img with
        | some nm => if nm ≠ "" then nm else "Image " ++ natStr n
        | none => "Image " ++ natStr n
      (n, acc.2.1 ++ ["![" ++ title ++ "](./" ++ path ++ ")"],
       acc.2.2 ++ [⟨n, filename, path, title⟩]))
    (imageCounter, [], [])

structure ShapeInfo where
  index : ℕ
  name : String
  anchorType : String
  isGrouped : Bool
  text : String
  position : String
deriving DecidableEq, Repr

/-- Model of `ImageParser._extract_text_from_shape(shape)`: concatenate each
paragraph's truthy run texts, join paragraphs with newlines; `none` when no
paragraph has text. -/
def extract_text_from_shape (shape : ShapeModel) : Option String :=
  let textParts := shape.paragraphs.filterMap fun para =>
    let runTexts := para.filterMap fun rt =>
      match rt with
      | some t => if t ≠ "" then some t else none
      | none => none
    if runTexts.isEmpty then none else some (pyJoin ("") runTexts)
  if textParts.isEmpty then none else some (pyJoin ("\n") textParts)

/-- Model of `ImageParser._get_anchor_info(anchor)`: the `_from` cell, rendered as a
nearby-cell note; empty when the anchor carries no `_from` position. -/
def get_anchor_info (a : AnchorModel) : String :=
  match a.fromCol, a.fromRow with
  | some c, some r => "セル " ++ get_column_letter (c + 1) ++ natStr (r + 1) ++ " 付近"
  | _, _ => ""

/-- Process one shape of one anchor (the body of the inner loop of
`_extract_shapes_from_openpyxl`): bump the counter, resolve the name,
extract text, and emit a Markdown block and a record only when text was
found. -/
def processShape (anchorType : String) (anchorInfo : String) (isGrouped : Bool)
    (shape : ShapeModel) (counter : ℕ) : ℕ × List String × List ShapeInfo :=
  let n := counter + 1
  let shapeName := match shape.name with
    | some nm => if nm ≠ "" then nm else "Shape " ++ natStr n
    | none => "Shape " ++ natStr n
  match extract_text_from_shape shape with
  | none => (n, [], [])
  | some text =>
    let groupIndicator := if isGrouped then " (グループ化)" else ""
    let mdParts := ["### 📐 " ++ shapeName ++ groupIndicator] ++
      ((splitOnChar (Char.ofNat 10) text.toList).filterMap fun line =>
        if pyStripList line ≠ [] then some ("> " ++ String.mk line) else none) ++
      (if anchorInfo ≠ "" then ["\n**位置情報**: " ++ anchorInfo] else [])
    (n, [pyJoin ("\n") mdParts],
     [⟨n, shapeName, anchorType, isGrouped, text, anchorInfo⟩])

/-- Process all shapes of one anchor: the standalone `sp` shape first, then
the members of `grpSp`, each flagged as grouped. -/
def processAnchor (anchorType : String) (a : AnchorModel) (counter : ℕ) :
    ℕ × List String × List ShapeInfo :=
  let anchorInfo := get_anchor_info a
  let shapes := (match a.sp with | some sh => [(sh, false)] | none => []) ++
    a.grpSp.map fun sh => (sh, true)
  shapes.foldl
    (fun acc p =>
      let r := processShape anchorType anchorInfo p.2 p.1 acc.1
      (r.1, acc.2.1 ++ r.2.1, acc.2.2 ++ r.2.2))
    (counter, [], [])

/-- Model of `ImageParser._extract_shapes_from_openpyxl(sheet)`: walk the drawing's
anchor collections (two-cell, one-cell, absolute, in that order), threading
the instance-level `shape_counter`. -/
def extract_shapes_from_openpyxl (sheet : SheetModel) (counter : ℕ) :
    ℕ × List String × List ShapeInfo :=
  match sheet.drawing with
  | none => (counter, [], [])
  | some d =>
    let anchorLists :=
      (if !d.twoCellAnchor.isEmpty then
        d.twoCellAnchor.map fun a => ("twoCellAnchor", a) else []) ++
      (if !d.oneCellAnchor.isEmpty then
        d.oneCellAnchor.map fun a => ("oneCellAnchor", a) else []) ++
      (if !d.absoluteAnchor.isEmpty then
        d.absoluteAnchor.map fun a => ("absoluteAnchor", a) else [])
    anchorLists.foldl
      (fun acc p =>
        let r := processAnchor p.1 p.2 acc.1
        (r.1, acc.2.1 ++ r.2.1, acc.2.2 ++ r.2.2))
      (counter, [], [])

/-- Model of `ImageParser.extract_shapes(sheet, excel_path=None)`: the openpyxl
drawing walk, with the ZIP/XML fallback attempted only when it found
nothing *and* a file path was supplied.  The fallback's result (a parse of
the workbook package on disk, an I/O operation) enters as the `zipShapes`
input; `SheetParser.parse_sheet` always calls with `excelPath = none`, so
the fallback is unreachable during sheet assembly. -/
def extract_shapes (sheet : SheetModel) (excelPath : Option String)
    (zipShapes : List String × List ShapeInfo) (counter : ℕ) :
    ℕ × List String × List ShapeInfo :=
  let r := extract_shapes_from_openpyxl sheet counter
  if r.2.2.isEmpty && excelPath.isSome then (r.1, zipShapes.1, zipShapes.2)
  else r

/-- Number of cells of a sheet carrying a non-null comment. -/
def commentCount (s : SheetModel) : ℕ :=
  (s.rows.map fun row => (row.filter fun c => c.comment.isSome).length).sum

/-! ### `SheetParser.parse_sheet` (sheet_parser.py) -/

structure SheetData where
  name : String
  index : ℕ
  content : String
  cellRange : String
  tables : List TableInfo
  images : List ImageInfo
  shapes : List ShapeInfo
  tablesCount : ℕ
  imagesCount : ℕ
  shapesCount : ℕ
deriving DecidableEq, Repr

/-- Model of `SheetParser._get_used_range(sheet)`. -/
def get_used_range (sheet : SheetModel) : String := sheet.dimensions

/-- Model of `SheetParser._convert_sheet_as_table(sheet, sheet_with_values)`:
whole-used-range fallback rendering. -/
def convert_sheet_as_table (cfg : Config) (sheet : SheetModel)
    (sv : Option SheetModel) : String :=
  if sheet.dimensions = "A1:A1" then ""
  else convert_range_to_markdown cfg sheet sheet.dimensions sv

/-- The happy path of `SheetParser.parse_sheet` (no exception raised, AI
features disabled): tables, then images (when enabled), then shapes, with
the whole-sheet fallback when nothing was produced.  Returns the sheet data
together with the advanced image and shape counters. -/
def parse_sheet (cfg : Config) (sheet : SheetModel) (sv : Option SheetModel)
    (imgCounter shapeCounter : ℕ) : SheetData × ℕ × ℕ :=
  let t := parse_tables cfg sheet sv
  let i := if cfg.extractImages then extract_images cfg sheet.images imgCounter
    else (imgCounter, [], [])
  let sh := extract_shapes sheet none ([], []) shapeCounter
  let contentParts := t.1 ++ i.2.1 ++ sh.2.1
  let contentParts2 :=
    if contentParts.isEmpty then
      let fb := convert_sheet_as_table cfg sheet sv
      if fb ≠ "" then [fb] else []
    else contentParts
  ({ name := sheet.title, index := sheet.sheetId,
     content := pyJoin ("\n\n") contentParts2,
     cellRange := get_used_range sheet,
     tables := t.2, images := i.2.2, shapes := sh.2.2,
     tablesCount := t.2.length, imagesCount := i.2.2.length,
     shapesCount := sh.2.2.length }, i.1, sh.1)

/-- The warning string substituted for a sheet's content when assembly
raises: `f"⚠️ このシートの解析中にエラーが発生しました: {str(e)}"`. -/
def warning_content (err : String) : String :=
  "⚠️ このシートの解析中にエラーが発生しました: " ++ err

/-- Model of `SheetParser.parse_sheet` with its try/except boundary made explicit.
Each sub-step's outcome (a Python call that may raise) enters as an
`Except String` value; the function replays the source's mutation order —
fields assigned before the failing step keep their values — and on the
first error returns the record with the warning content, as the source's
`except` clause does.  The images step runs only when image extraction is
enabled; the fallback runs only when no content was produced. -/
def parse_sheet_guarded (cfg : Config) (sheet : SheetModel)
    (tablesR : Except String (List String × List TableInfo))
    (imagesR : Except String (ℕ × List String × List ImageInfo))
    (shapesR : Except String (ℕ × List String × List ShapeInfo))
    (fallbackR : Except String String) : SheetData :=
  let sd0 : SheetData :=
    { name := sheet.title, index := sheet.sheetId, content := "",
      cellRange := get_used_range sheet, tables := [], images := [],
      shapes := [], tablesCount := 0, imagesCount := 0, shapesCount := 0 }
  match tablesR with
  | .error e => { sd0 with content := warning_content e }
  | .ok t =>
    let sd1 := { sd0 with tables := t.2, tablesCount := t.2.length }
    match (if cfg.extractImages then imagesR else .ok (0, [], [])) with
    | .error e => { sd1 with content := warning_content e }
    | .ok i =>
      let sd2 := if cfg.extractImages then
          { sd1 with images := i.2.2, imagesCount := i.2.2.length }
        else sd1
      match shapesR with
      | .error e => { sd2 with content := warning_content e }
      | .ok sh =>
        let sd3 := { sd2 with shapes := sh.2.2, shapesCount := sh.2.2.length }
        let contentParts := t.1 ++ i.2.1 ++ sh.2.1
        if contentParts.isEmpty then
          match fallbackR with
          | .error e => { sd3 with content := warning_content e }
          | .ok fb =>
            { sd3 with content := pyJoin ("\n\n") (if fb ≠ "" then [fb] else []) }
        else { sd3 with content := pyJoin ("\n\n") contentParts }

/-- The first uncaught exception of the assembly try-block, in evaluation
order, for given sub-step outcomes. -/
def assembly_error (cfg : Config)
    (tablesR : Except String (List String × List TableInfo))
    (imagesR : Except String (ℕ × List String × List ImageInfo))
    (shapesR : Except String (ℕ × List String × List ShapeInfo))
    (fallbackR : Except String String) : Option String :=
  match tablesR with
  | .error e => some e
  | .ok t =>
    match (if cfg.extractImages then imagesR else .ok (0, [], [])) with
    | .error e => some e
    | .ok i =>
      match shapesR with
      | .error e => some e
      | .ok sh =>
        if (t.1 ++ i.2.1 ++ sh.2.1).isEmpty then
          match fallbackR with
          | .error e => some e
          | .ok _ => none
        else none

/-! ### `ExcelToMarkdownConverter._parse_cross_sheet_reference` (core.py)

The source matches the regular expression
`(['\"]?)([^'\"!]+)\1!([A-Z]+[0-9]+(?::[A-Z]+[0-9]+)?)` with `re.findall`
and keeps the first match.  The matcher below replays Python's
leftmost-match, greedy-with-backtracking semantics for exactly this
pattern; because the quantified character classes are disjoint from the
characters that must follow them, each quantifier's maximal match is the
only candidate, so the search is deterministic. -/

/-- A character of the class `[^'\"!]` (anything but quotes and `!`). -/
def isNameChar (c : Char) : Bool :=
  c ≠ Char.ofNat 39 && c ≠ Char.ofNat 34 && c ≠ ('!')

/-- A quote character, for the optional group `(['\"]?)`. -/
def isQuoteChar (c : Char) : Bool := c = Char.ofNat 39 || c = Char.ofNat 34

/-- Match `[A-Z]+[0-9]+(?::[A-Z]+[0-9]+)?` at the head of `l`; returns the
matched address text. -/
def parseAddr (l : List Char) : Option (List Char) :=
  let u := l.takeWhile Char.isUpper
  if u.isEmpty then none
  else
    let r1 := l.drop u.length
    let d := r1.takeWhile Char.isDigit
    if d.isEmpty then none
    else
      let r2 := r1.drop d.length
      match r2 with
      | ':' :: r3 =>
        let u2 := r3.takeWhile Char.isUpper
        if u2.isEmpty then some (u ++ d)
        else
          let r4 := r3.drop u2.length
          let d2 := r4.takeWhile Char.isDigit
          if d2.isEmpty then some (u ++ d)
          else some (u ++ d ++ ':' :: u2 ++ d2)
      | _ => some (u ++ d)

/-- Try the whole pattern anchored at the head of `l`; returns
(sheet-name group, address group). -/
def matchAt (l : List Char) : Option (List Char × List Char) :=
  match l with
  | [] => none
  | c :: rest =>
    if isQuoteChar c then
      let name := rest.takeWhile isNameChar
      if name.isEmpty then none
      else
        match rest.drop name.length with
        | c2 :: '!' :: r2 =>
          if c2 = c then (parseAddr r2).map fun a => (name, a) else none
        | _ => none
    else if isNameChar c then
      let name := l.takeWhile isNameChar
      match l.drop name.length with
      | '!' :: r2 => (parseAddr r2).map fun a => (name, a)
      | _ => none
    else none

/-- Leftmost match of the pattern anywhere in `l` (the first element of
`re.findall`). -/
def findRef : List Char → Option (List Char × List Char)
  | [] => none
  | c :: rest =>
    match matchAt (c :: rest) with
    | some r => some r
    | none => findRef rest

structure CrossRef where
  fromSheet : String
  fromCell : String
  toSheet : String
  toCell : String
  formula : String
deriving DecidableEq, Repr

/-- Model of `ExcelToMarkdownConverter._parse_cross_sheet_reference(formula,
from_sheet, from_cell)`. -/
def parse_cross_sheet_reference (formula fromSheet fromCell : String) :
    Option CrossRef :=
  match findRef formula.toList with
  | some (name, rng) =>
    some ⟨fromSheet, fromCell, String.mk name, String.mk rng, formula⟩
  | none => none

/-- The formula cells of a sheet in `iter_rows` order, as
(coordinate, formula text). -/
def SheetModel.formulaCells (s : SheetModel) : List (String × String) :=
  s.rowRange.flatMap fun r =>
    s.colRange.filterMap fun c =>
      if (s.cellAt r c).dataType = "f" then
        some (coordStr c r, pyStr (s.cellAt r c).value)
      else none

/-- Model of `ExcelToMarkdownConverter._analyze_references()`: every formula cell of
every sheet whose formula contains `!` contributes its first parsed
cross-sheet reference, if any. -/
def analyze_references (sheets : List SheetModel) : List CrossRef :=
  sheets.flatMap fun sheet =>
    sheet.formulaCells.filterMap fun fc =>
      if containsChar fc.2 ('!') then
        parse_cross_sheet_reference fc.2 sheet.title fc.1
      else none

/-- Model of `str.upper` (ASCII model). -/
def upperStr (s : String) : String := String.mk (s.toList.map Char.toUpper)

/-- Model of `MetadataGenerator._detect_reference_type(formula)`. -/
def detect_reference_type (formula : String) : String :=
  let up := upperStr formula
  if containsSub up ("SUM") then "sum"
  else if containsSub up ("AVERAGE") || containsSub up ("AVG") then "average"
  else if containsSub up ("COUNT") then "count"
  else if containsSub up ("VLOOKUP") || containsSub up ("HLOOKUP") then "lookup"
  else if containsSub up ("IF") then "conditional"
  else "reference"

/-! ### Anchor generation (markdown_generator.py and metadata_generator.py
each define their own `_create_anchor`) -/

/-- Model of `MarkdownGenerator._create_anchor(sheet_name)`: spaces and underscores
to hyphens, lowercase, then keep only alphanumerics and hyphens. -/
def markdown_create_anchor (sheetName : String) : String :=
  let anchor := lowerStr (strReplace (strReplace sheetName (" ") ("-")) ("_") ("-"))
  String.mk (anchor.toList.filter fun c => c.isAlphanum || c = ('-'))

/-- Model of `MetadataGenerator._create_anchor(sheet_name)`: the metadata
generator's own copy of the slug function. -/
def metadata_create_anchor (sheetName : String) : String :=
  let anchor := lowerStr (strReplace (strReplace sheetName (" ") ("-")) ("_") ("-"))
  String.mk (anchor.toList.filter fun c => c.isAlphanum || c = ('-'))

/-- The `section_in_md` value the metadata generator records per sheet. -/
def metadata_section_in_md (sheetName : String) : String :=
  "#" ++ metadata_create_anchor sheetName

/-! ### `MarkdownGenerator.merge_sheets` (markdown_generator.py) -/

structure WorkbookProps where
  title : Option String := none
  creator : Option String := none
deriving DecidableEq, Repr

/-- The document title line's text:
`getattr(workbook.properties, 'title', None) or 'Excel Document'`. -/
def headerTitle (props : WorkbookProps) : String :=
  match props.title with
  | some t => if t ≠ "" then t else "Excel Document"
  | none => "Excel Document"

/-- The optional author line:
`if ... workbook.properties.creator: header_parts.append(...)`. -/
def creatorLines (props : WorkbookProps) : List String :=
  match props.creator with
  | some c => if c ≠ "" then ["- 作成者: " ++ c] else []
  | none => []

/-- Model of `MarkdownGenerator._generate_header(workbook, sheets_data)`, with the
`datetime.now()` timestamp supplied as the `now` input. -/
def generate_header (props : WorkbookProps) (now : String) (sheetCount : ℕ) :
    String :=
  pyJoin ("\n")
    (["# " ++ headerTitle props ++ "\n", "**ファイル情報**",
      "- シート数: " ++ natStr sheetCount, "- 変換日時: " ++ now] ++
     creatorLines props ++ [""])

/-- Model of `MarkdownGenerator._generate_toc(sheets_data)`. -/
def generate_toc (sheetsData : List SheetData) : String :=
  pyJoin ("\n") ("## 目次\n" :: sheetsData.enum.map fun p =>
    let sd := p.2
    let infoParts :=
      (if sd.tablesCount > 0 then [natStr sd.tablesCount ++ "表"] else []) ++
      (if sd.imagesCount > 0 then [natStr sd.imagesCount ++ "画像"] else [])
    let infoStr :=
      if !infoParts.isEmpty then " (" ++ pyJoin (", ") infoParts ++ ")" else ""
    natStr (p.1 + 1) ++ ". [" ++ sd.name ++ "](#" ++
      markdown_create_anchor sd.name ++ ")" ++ infoStr)

/-- Model of `MarkdownGenerator._find_related_references(sheet_name,
cross_references)`: (direction, sheet, cell) triples. -/
def find_related_references (sheetName : String) (refs : List CrossRef) :
    List (String × String × String) :=
  refs.filterMap fun ref =>
    if ref.fromSheet = sheetName then some ("to", ref.toSheet, ref.toCell)
    else if ref.toSheet = sheetName then some ("from", ref.fromSheet, ref.fromCell)
    else none

/-- Model of `MarkdownGenerator._generate_reference_links(references)`. -/
def generate_reference_links (rels : List (String × String × String)) : String :=
  if rels.isEmpty then ""
  else
    pyJoin ("\n") ("\n> **関連シート:**" :: rels.map fun r =>
      "> - [" ++ r.2.1 ++ "](#" ++ markdown_create_anchor r.2.1 ++ ") (" ++
        (if r.1 = "to" then "参照先" else "参照元") ++ ": セル " ++ r.2.2 ++ ")")

/-- The Markdown lines one sheet contributes to the merged document
(separator, anchor tag, numbered heading, content or placeholder, related
links), for the 0-based position paired with the sheet data. -/
def merge_section (refs : List CrossRef) (p : ℕ × SheetData) : List String :=
  let idx := p.1 + 1
  let sd := p.2
  (if 1 < idx then ["\n---\n"] else []) ++
  ["\n<a name=\"" ++ markdown_create_anchor sd.name ++ "\"></a>",
   "# " ++ natStr idx ++ ". " ++ sd.name ++ "\n"] ++
  [if sd.content ≠ "" then sd.content
   else "*このシートには表示可能なコンテンツがありません*"] ++
  (let rels := find_related_references sd.name refs
   if !rels.isEmpty then ["\n" ++ generate_reference_links rels ++ "\n"]
   else [])

/-- Model of `MarkdownGenerator.merge_sheets(sheets_data, cross_references,
workbook)`: header, optional TOC, then per-sheet anchor, numbered heading,
content (or placeholder), and related-sheet links, joined with newlines. -/
def merge_sheets (cfg : Config) (now : String) (sheetsData : List SheetData)
    (refs : List CrossRef) (props : WorkbookProps) : String :=
  let merged0 := [generate_header props now sheetsData.length]
  let merged1 :=
    if cfg.createToc then merged0 ++ [generate_toc sheetsData, "\n---\n"]
    else merged0
  let merged2 := merged1 ++ sheetsData.enum.flatMap (merge_section refs)
  pyJoin ("\n") merged2

/-! ### Chunk estimation (core.py `_estimate_chunks` and
metadata_generator.py `generate` / `_estimate_tokens`)

Python floats are modelled as exact rationals; `len(content) * 0.3`
becomes `3 * L / 10`.  For every concrete length used in a theorem below,
binary64 arithmetic on `0.3` was checked by hand to produce the same
floor, so the idealisation does not affect any stated result. -/

/-- Model of `ExcelToMarkdownConverter._estimate_chunks(content)` as a function of
the content length: `max(1, int(len(content)*0.3 // chunk_size) + 1)`. -/
def estimate_chunks (contentLen chunkSize : ℕ) : ℕ :=
  max 1 ((((3 * contentLen : ℚ) / 10) / (chunkSize : ℚ)).floor.toNat + 1)

/-- Model of `MetadataGenerator._estimate_tokens(content)`:
`int(len(content) * 0.3)`. -/
def estimate_tokens_meta (contentLen : ℕ) : ℕ :=
  ((3 * contentLen : ℚ) / 10).floor.toNat

/-- The `estimated_chunks` value `MetadataGenerator.generate` computes:
`max(1, int(total_tokens // chunk_size) + 1)`. -/
def estimated_chunks_meta (contentLen chunkSize : ℕ) : ℕ :=
  max 1 (estimate_tokens_meta contentLen / chunkSize + 1)

/-! ### Conversion driver (core.py `convert`) -/

/-- The per-sheet loop of `convert`: skip hidden sheets unless configured
otherwise, and thread the image and shape counters of the converter's
parser instances through the run.  Each workbook entry carries the
formula-view sheet and the value-view sheet at the same position. -/
def convert_sheets_fold (cfg : Config) :
    List (SheetModel × SheetModel) → ℕ × ℕ → List SheetData
  | [], _ => []
  | p :: rest, ctrs =>
    if p.1.sheetState = "hidden" && !cfg.includeHidden then
      convert_sheets_fold cfg rest ctrs
    else
      let r := parse_sheet cfg p.1 (some p.2) ctrs.1 ctrs.2
      r.1 :: convert_sheets_fold cfg rest r.2

/-- The merged Markdown document `convert` writes, as a function of the
loaded workbook (both views), the configuration, and the run's
`datetime.now()` timestamp.  AI features are disabled (the default), so no
AI sections are appended. -/
def convert_markdown (cfg : Config) (now : String)
    (wb : List (SheetModel × SheetModel)) (props : WorkbookProps) : String :=
  let sheetsData := convert_sheets_fold cfg wb (0, 0)
  let refs := analyze_references (wb.map Prod.fst)
  merge_sheets cfg now sheetsData refs props

/-! ## Theorems -/

/-- A cell whose built-in format id and format code mark it as a date
(`numFmtId = 14`, format `yyyy/mm/dd`), as the date-serial claims assume. -/
def serialDateCell : Cell :=
  { dataType := "n", numberFormat := "yyyy/mm/dd", numFmtId := 14, isDate := true }

/-- C1: evaluation of the normalizer's serial-to-date conversion at the
boundary serials, through `_format_cell_value` on a date-formatted cell.
Serials 1, 61 and 36526 render to the expected epoch-convention dates, but
serials 59 and 60 both render to 1900-02-28: the `value > 59` branch of
`_convert_excel_date` already includes serial 60, so 59 and 60 collapse to
the same calendar day instead of adjacent ones — contradicting the claim
(and the source's own comment, which labels that branch as covering
1900-03-01 onward). -/
theorem date_serial_boundary_evaluation :
    format_cell_value (.int 1) serialDateCell = .str ("1900年01月01日") ∧
    format_cell_value (.int 59) serialDateCell = .str ("1900年02月28日") ∧
    format_cell_value (.int 60) serialDateCell = .str ("1900年02月28日") ∧
    format_cell_value (.int 61) serialDateCell = .str ("1900年03月01日") ∧
    format_cell_value (.int 36526) serialDateCell = .str ("2000年01月01日") := by
  decide

/-- C2: evaluation of the cross-reference parser on the two specified
formulas.  The quoted form extracts the expected fields, and both
classifications match; but for `=SUM(Sheet1!A1:A10)` the recorded
destination sheet is the whole prefix `=SUM(Sheet1` — the pattern
`([^'\"!]+)` places no boundary before a bare sheet name — not the claimed
`Sheet1`. -/
theorem cross_reference_example_evaluation :
    parse_cross_sheet_reference ("=SUM(Sheet1!A1:A10)") ("Summary") ("C3") =
      some ⟨"Summary", "C3", "=SUM(Sheet1", "A1:A10", "=SUM(Sheet1!A1:A10)"⟩ ∧
    parse_cross_sheet_reference ("='Sales Q1'!B2") ("Summary") ("C4") =
      some ⟨"Summary", "C4", "Sales Q1", "B2", "='Sales Q1'!B2"⟩ ∧
    detect_reference_type ("=SUM(Sheet1!A1:A10)") = "sum" ∧
    detect_reference_type ("='Sales Q1'!B2") = "reference" := by
  decide

/-- C7: the anchor-slug functions of the Markdown generator and of the
metadata generator compute the same function, so the TOC links, the
per-sheet anchor tags and the related-sheets links (all produced by
`markdown_create_anchor` inside `merge_sheets`) agree byte-for-byte with
the slug in the metadata's `section_in_md` reference. -/
theorem anchor_functions_agree (name : String) :
    markdown_create_anchor name = metadata_create_anchor name ∧
    metadata_section_in_md name = "#" ++ markdown_create_anchor name :=
  ⟨rfl, rfl⟩

/-- The chunk estimate as the claim words it: token estimate `0.3·L`
divided by the chunk size and rounded up to the next integer, minimum 1
(`⌈3L/(10c)⌉ = (3L + 10c − 1) / (10c)` for positive `c`). -/
def spec_chunk_estimate (contentLen chunkSize : ℕ) : ℕ :=
  max 1 ((3 * contentLen + 10 * chunkSize - 1) / (10 * chunkSize))

/-- Bridging lemma: `Rat.floor` agrees with the `Int.floor` of the floor ring structure. -/
theorem ratFloor_eq (q : ℚ) : q.floor = ⌊q⌋ := by
  rw [Rat.floor_def', Rat.floor_def]

/-- Floor of the scaled token estimate equals natural division. -/
theorem floor_token_div (L c : ℕ) :
    (((3 * L : ℚ)) / 10 / (c : ℚ)).floor.toNat = 3 * L / (10 * c) := by
  have h1 : ((3 * L : ℚ)) / 10 / (c : ℚ) = ((3 * L : ℕ) : ℚ) / ((10 * c : ℕ) : ℚ) := by
    push_cast
    ring
  rw [h1, ratFloor_eq, Int.floor_toNat, Nat.floor_div_eq_div]

/-- Floor of the token estimate itself equals natural division by 10. -/
theorem floor_token (L : ℕ) :
    (((3 * L : ℚ)) / 10).floor.toNat = 3 * L / 10 := by
  have h1 : ((3 * L : ℚ)) / 10 = ((3 * L : ℕ) : ℚ) / ((10 : ℕ) : ℚ) := by
    push_cast
    ring
  rw [h1, ratFloor_eq, Int.floor_toNat, Nat.floor_div_eq_div]

/-- C5 counterexample: at content length 8000 and chunk size 800 the token
estimate is exactly 2400 = 3·800, where rounding up would give 3, but both
implementations return 4 (`int(tokens // chunk_size) + 1` adds 1 even on
exact multiples).  Checked against binary64 arithmetic: `8000*0.3` is
exactly `2400.0`. -/
theorem chunk_estimate_exact_multiple_counterexample :
    estimate_chunks 8000 800 = 4 ∧ estimated_chunks_meta 8000 800 = 4 ∧
    spec_chunk_estimate 8000 800 = 3 := by
  refine ⟨?_, ?_, by decide⟩
  · unfold estimate_chunks
    rw [floor_token_div]
    decide
  · unfold estimated_chunks_meta estimate_tokens_meta
    rw [floor_token]
    decide

/-- C5 amended: both chunk estimators compute `⌊0.3·L / c⌋ + 1` — one more
than the exact quotient when `0.3·L` is an exact multiple of `c`, and equal
to the claimed round-up value in every other case; the minimum of 1 is
automatic. -/
theorem chunk_estimate_is_floor_plus_one (L c : ℕ) (hc : 0 < c) :
    estimate_chunks L c = 3 * L / (10 * c) + 1 ∧
    estimated_chunks_meta L c = 3 * L / (10 * c) + 1 ∧
    (¬ (10 * c) ∣ (3 * L) → estimate_chunks L c = spec_chunk_estimate L c) := by
  have hq : estimate_chunks L c = 3 * L / (10 * c) + 1 := by
    unfold estimate_chunks
    rw [floor_token_div]
    exact Nat.max_eq_right (Nat.le_add_left 1 _)
  have hm : estimated_chunks_meta L c = 3 * L / (10 * c) + 1 := by
    unfold estimated_chunks_meta estimate_tokens_meta
    rw [floor_token, Nat.div_div_eq_div_mul]
    exact Nat.max_eq_right (Nat.le_add_left 1 _)
  refine ⟨hq, hm, fun hnd => ?_⟩
  rw [hq]
  unfold spec_chunk_estimate
  have hb : 0 < 10 * c := by omega
  have hr : 3 * L % (10 * c) ≠ 0 := fun h0 => hnd (Nat.dvd_of_mod_eq_zero h0)
  have key : ∀ d q r : ℕ, 0 < d → 1 ≤ r → r < d → (d * q + r + d - 1) / d = q + 1 := by
    intro d q r hd h1 h2
    have hx : d * q + r + d - 1 = d * (q + 1) + (r - 1) := by
      rw [Nat.mul_add, Nat.mul_one]
      omega
    rw [hx, Nat.mul_add_div hd, Nat.div_eq_of_lt (by omega)]
  have hceil : (3 * L + 10 * c - 1) / (10 * c) = 3 * L / (10 * c) + 1 := by
    have hdm := Nat.div_add_mod (3 * L) (10 * c)
    have h2 : 3 * L + 10 * c - 1 =
        (10 * c) * (3 * L / (10 * c)) + (3 * L % (10 * c)) + 10 * c - 1 := by omega
    rw [h2, key _ _ _ hb (by omega) (Nat.mod_lt _ hb)]
  rw [hceil]
  exact (Nat.max_eq_right (Nat.le_add_left 1 _)).symm

/-- C5 witness: the amended statement instantiated at content length 1234,
chunk size 800 (where `10·c ∤ 3·L`, so the round-up form also applies). -/
theorem chunk_estimate_is_floor_plus_one_witness :
    estimate_chunks 1234 800 = 3 * 1234 / (10 * 800) + 1 ∧
    estimate_chunks 1234 800 = spec_chunk_estimate 1234 800 :=
  ⟨(chunk_estimate_is_floor_plus_one 1234 800 (by decide)).1,
   (chunk_estimate_is_floor_plus_one 1234 800 (by decide)).2.2 (by decide)⟩

/-- A two-row, one-column sheet whose every cell holds the whitespace-only
string `" "`. -/
def whitespaceSheet : SheetModel :=
  { rows := [[{ value := .str (" ") }], [{ value := .str (" ") }]] }

/-- C3 counterexample: on a sheet whose every row is blank (each cell
whitespace-only), the pipeline returns one table, not an empty list.  Every
row passes the detector's blankness test, so `_detect_tables_by_blank_rows`
finds no valid candidate and falls back to the whole used range — and the
renderer's blank-trimming drops only empty strings, not whitespace, so the
fallback range renders to a non-empty table. -/
theorem blank_sheet_counterexample :
    (∀ r ∈ whitespaceSheet.rowRange, rowIsBlank whitespaceSheet r) ∧
    detect_tables_by_blank_rows whitespaceSheet = ["A1:A2"] ∧
    (parse_tables {} whitespaceSheet (some whitespaceSheet)).2.length = 1 := by
  decide

/-- Any cell reached by `cellAt` is either the default empty cell or a
member of some stored row. -/
theorem cellAt_default_or_mem (s : SheetModel) (r c : ℕ) :
    s.cellAt r c = {} ∨ ∃ row ∈ s.rows, s.cellAt r c ∈ row := by
  unfold SheetModel.cellAt
  split
  · cases hrow : s.rows.get? (r - s.minRow) with
    | none =>
      left
      rfl
    | some row =>
      cases hc : row.get? (c - s.minCol) with
      | none =>
        left
        rw [Option.getD_some, hc]
        rfl
      | some cell =>
        right
        refine ⟨row, List.get?_mem hrow, ?_⟩
        rw [Option.getD_some, hc, Option.getD_some]
        exact List.get?_mem hc
  · left
    rfl

/-- In a sheet whose stored cells all have null values, every coordinate
reads as null. -/
theorem cellAt_value_null (s : SheetModel)
    (hv : ∀ row ∈ s.rows, ∀ cl ∈ row, cl.value = CellVal.null) (r c : ℕ) :
    (s.cellAt r c).value = CellVal.null := by
  rcases cellAt_default_or_mem s r c with h | ⟨row, hrow, hcell⟩
  · rw [h]
  · exact hv row hrow _ hcell

/-- In a sheet whose stored cells are all non-formula, every coordinate
reads as non-formula. -/
theorem cellAt_not_formula (s : SheetModel)
    (hf : ∀ row ∈ s.rows, ∀ cl ∈ row, cl.dataType ≠ "f") (r c : ℕ) :
    (s.cellAt r c).dataType ≠ "f" := by
  rcases cellAt_default_or_mem s r c with h | ⟨row, hrow, hcell⟩
  · rw [h]
    decide
  · exact hf row hrow _ hcell

/-- A non-formula cell over a null value view displays as the empty
string. -/
theorem displayedCell_null (sheet sv : SheetModel)
    (hf : ∀ row ∈ sheet.rows, ∀ cl ∈ row, cl.dataType ≠ "f")
    (hv : ∀ row ∈ sv.rows, ∀ cl ∈ row, cl.value = CellVal.null) (r c : ℕ) :
    displayedCell sheet (some sv) r c = "" := by
  unfold displayedCell
  dsimp only
  rw [cellAt_value_null sv hv r c]
  simp [cellAt_not_formula sheet hf r c]
  decide

/-- Rendering any range of an all-null sheet yields the empty string:
every displayed cell is empty, `replace('', None)` turns the whole frame
into nulls, and the row `dropna` empties it. -/
theorem convert_range_null (cfg : Config) (sheet sv : SheetModel)
    (hf : ∀ row ∈ sheet.rows, ∀ cl ∈ row, cl.dataType ≠ "f")
    (hv : ∀ row ∈ sv.rows, ∀ cl ∈ row, cl.value = CellVal.null)
    (rng : String) :
    convert_range_to_markdown cfg sheet rng (some sv) = "" := by
  unfold convert_range_to_markdown
  cases hp : parseRange rng with
  | none => rfl
  | some q =>
    obtain ⟨c1, r1, c2, r2⟩ := q
    have hg1 : filteredRows (toOptGrid (buildData sheet (some sv) r1 c1 r2 c2)) = [] := by
      unfold filteredRows
      rw [List.filter_eq_nil_iff]
      intro row hrow
      simp only [toOptGrid, buildData, List.mem_map] at hrow
      obtain ⟨inner, ⟨r, _, rfl⟩, rfl⟩ := hrow
      simp [List.all_eq_true, displayedCell_null sheet sv hf hv]
    unfold convert_cells droppedRows
    simp [hg1]

/-- C3 amended: a sheet with no declared tables, no formula cells, and a
value view that is null everywhere produces an empty table list — the
all-blank regions are silently dropped because their rendering is empty.
(The unamended claim fails for whitespace-only *strings*: see the
counterexample, where the whole-range fallback of the detector meets a
renderer that only trims `''`.) -/
theorem all_null_sheet_yields_no_tables (cfg : Config) (sheet sv : SheetModel)
    (ht : sheet.tables = [])
    (hf : ∀ row ∈ sheet.rows, ∀ cl ∈ row, cl.dataType ≠ "f")
    (hv : ∀ row ∈ sv.rows, ∀ cl ∈ row, cl.value = CellVal.null) :
    parse_tables cfg sheet (some sv) = ([], []) := by
  have hconst : ∀ (xs : List (ℕ × String)) (acc : List String × List TableInfo),
      xs.foldl (fun a _ => a) acc = acc := by
    intro xs
    induction xs with
    | nil => intro acc; rfl
    | cons y ys ih =>
      intro acc
      rw [List.foldl_cons]
      exact ih acc
  have hfold : ∀ (l : List (ℕ × String)),
      l.foldl (fun acc p =>
        let md := convert_range_to_markdown cfg sheet p.2 (some sv)
        if md ≠ "" then
          (acc.1 ++ [md],
           acc.2 ++ [⟨"table_" ++ natStr (p.1 + 1), p.2, "auto_detected", md⟩])
        else acc)
        (([] : List String), ([] : List TableInfo)) = ([], []) := by
    intro l
    simp only [convert_range_null cfg sheet sv hf hv, ne_eq,
      not_true_eq_false, if_false]
    exact hconst l _
  unfold parse_tables
  rw [ht]
  simp only [List.isEmpty_nil, Bool.not_true, Bool.false_eq_true, if_false]
  split
  · exact hfold _
  · rfl

/-- An all-null two-row sheet (default cells only). -/
def allNullSheet : SheetModel := { rows := [[{}], [{}]] }

/-- C3 witness: the amended statement applied to a concrete all-null
sheet. -/
theorem all_null_sheet_yields_no_tables_witness :
    parse_tables {} allNullSheet (some allNullSheet) = ([], []) :=
  all_null_sheet_yields_no_tables {} allNullSheet allNullSheet rfl
    (by decide) (by decide)

/-- A sheet whose only annotation is a cell comment (no drawing part). -/
def commentOnlySheet : SheetModel :=
  { rows := [[{ value := .str ("データ"),
                comment := some ("要確認", some ("担当者")) }],
             [{ value := .str ("x") }]] }

/-- C4 counterexample: a sheet carrying one non-null cell comment yields
zero extracted objects — `extract_shapes` (and the whole of
image_parser.py) never reads cell comments, so no comment objects are ever
emitted during sheet assembly. -/
theorem comment_cells_yield_no_objects :
    commentCount commentOnlySheet = 1 ∧
    (extract_shapes commentOnlySheet none ([], []) 0).2.2 = [] ∧
    (parse_sheet {} commentOnlySheet (some commentOnlySheet) 0 0).1.shapes = [] ∧
    (parse_sheet {} commentOnlySheet (some commentOnlySheet) 0 0).1.shapesCount = 0 := by
  refine ⟨by decide, by decide, ?_, ?_⟩ <;> decide

/-- C4 amended: the shape-extraction step run during sheet assembly (which
calls `extract_shapes` with no file path, so the ZIP fallback is dead) is a
function of the sheet's drawing part alone; cell comments — and every other
cell property — never influence it, and no object is produced for a
comment. -/
theorem shape_extraction_ignores_comments (s1 s2 : SheetModel) (n : ℕ)
    (h : s1.drawing = s2.drawing) :
    extract_shapes s1 none ([], []) n = extract_shapes s2 none ([], []) n := by
  unfold extract_shapes extract_shapes_from_openpyxl
  rw [h]

/-- A copy of the comment-only sheet with its comment removed. -/
def commentStrippedSheet : SheetModel :=
  { rows := [[{ value := .str ("データ") }], [{ value := .str ("x") }]] }

/-- C4 witness: the amended statement applied to two concrete sheets that
differ exactly in their comments. -/
theorem shape_extraction_ignores_comments_witness :
    extract_shapes commentOnlySheet none ([], []) 0 =
      extract_shapes commentStrippedSheet none ([], []) 0 :=
  shape_extraction_ignores_comments commentOnlySheet commentStrippedSheet 0 rfl

/-- The per-sheet map the orchestrator's loop performs when each sheet's
step outcomes are given. -/
def parse_all_guarded (cfg : Config)
    (inputs : List (SheetModel ×
      Except String (List String × List TableInfo) ×
      Except String (ℕ × List String × List ImageInfo) ×
      Except String (ℕ × List String × List ShapeInfo) ×
      Except String String)) : List SheetData :=
  inputs.map fun p => parse_sheet_guarded cfg p.1 p.2.1 p.2.2.1 p.2.2.2.1 p.2.2.2.2

/-- C6: when any step of a sheet's assembly raises (first uncaught
exception `e`), `parse_sheet` returns normally with the inline warning
string as the sheet's content, and the conversion loop still produces one
sheet record per input sheet. -/
theorem sheet_assembly_error_contained (cfg : Config) (sheet : SheetModel)
    (tR : Except String (List String × List TableInfo))
    (iR : Except String (ℕ × List String × List ImageInfo))
    (sR : Except String (ℕ × List String × List ShapeInfo))
    (fR : Except String String) (e : String)
    (h : assembly_error cfg tR iR sR fR = some e) :
    (parse_sheet_guarded cfg sheet tR iR sR fR).content = warning_content e ∧
    ∀ inputs, (parse_all_guarded cfg inputs).length = inputs.length := by
  refine ⟨?_, fun inputs => List.length_map _ _⟩
  unfold assembly_error at h
  unfold parse_sheet_guarded
  cases tR with
  | error e' =>
    simp only [Option.some.injEq] at h
    simp [h]
  | ok t =>
    simp only at h ⊢
    cases hi : (if cfg.extractImages then iR else Except.ok (0, [], [])) with
    | error e' =>
      rw [hi] at h
      simp only [Option.some.injEq] at h
      simp [h]
    | ok i =>
      rw [hi] at h
      simp only at h ⊢
      cases sR with
      | error e' =>
        simp only [Option.some.injEq] at h
        simp [h]
      | ok sh =>
        simp only at h ⊢
        by_cases hc : (t.1 ++ i.2.1 ++ sh.2.1).isEmpty
        · rw [if_pos hc] at h ⊢
          cases fR with
          | error e' =>
            simp only [Option.some.injEq] at h
            simp [h]
          | ok fb => simp at h
        · rw [if_neg hc] at h
          simp at h

/-- C6 witness: a concrete failing tables step is contained as a warning
and the loop length is preserved. -/
theorem sheet_assembly_error_contained_witness :
    (parse_sheet_guarded {} allNullSheet (.error ("boom"))
        (.ok (0, [], [])) (.ok (0, [], [])) (.ok (""))).content =
      warning_content ("boom") ∧
    (parse_all_guarded {} []).length = 0 :=
  ⟨(sheet_assembly_error_contained {} allNullSheet (.error ("boom"))
      (.ok (0, [], [])) (.ok (0, [], [])) (.ok ("")) ("boom") rfl).1,
   (sheet_assembly_error_contained {} allNullSheet (.error ("boom"))
      (.ok (0, [], [])) (.ok (0, [], [])) (.ok ("")) ("boom") rfl).2 []⟩

/-- The tail a list contributes to `sep.join` after the first element. -/
def joinTail (sep : String) : List String → String
  | [] => ""
  | y :: ys => sep ++ y ++ joinTail sep ys

/-- Shifting the accumulator out of `str.join`'s fold. -/
theorem foldl_append_shift (sep : String) (xs : List String) :
    ∀ a, xs.foldl (fun acc y => acc ++ sep ++ y) a = a ++ joinTail sep xs := by
  induction xs with
  | nil =>
    intro a
    symm
    exact String.append_empty a
  | cons y ys ih =>
    intro a
    rw [List.foldl_cons, ih, joinTail]
    simp only [String.append_assoc]

/-- Splitting lemma: `sep.join(x :: xs)` splits into head and tail. -/
theorem pyJoin_cons (sep x : String) (xs : List String) :
    pyJoin sep (x :: xs) = x ++ joinTail sep xs :=
  foldl_append_shift sep xs x

/-- The header splits around the timestamp: everything before and after the
`now` slot is independent of it. -/
theorem generate_header_split (props : WorkbookProps) (n : ℕ) (now : String) :
    generate_header props now n =
      ("# " ++ headerTitle props ++ "\n" ++ "\n" ++ "**ファイル情報**" ++ "\n" ++
        ("- シート数: " ++ natStr n) ++ "\n" ++ "- 変換日時: ") ++ now ++
      joinTail ("\n") (creatorLines props ++ [""]) := by
  unfold generate_header
  simp only [List.cons_append, List.nil_append, pyJoin, List.foldl_cons]
  rw [foldl_append_shift]
  simp only [String.append_assoc]

/-- C9: the merged Markdown document produced by `convert` is, for a fixed
workbook and configuration, of the form `pre ++ timestamp ++ post` with
`pre`/`post` independent of the timestamp: two runs on the same input with
the same configuration (AI features disabled, fresh converter instances so
the object counters start at zero) produce byte-identical output except for
the embedded generation-timestamp text. -/
theorem merged_markdown_timestamp_only_difference (cfg : Config)
    (wb : List (SheetModel × SheetModel)) (props : WorkbookProps) :
    ∃ pre post, ∀ now, convert_markdown cfg now wb props = pre ++ now ++ post := by
  refine
    ⟨"# " ++ headerTitle props ++ "\n" ++ "\n" ++ "**ファイル情報**" ++ "\n" ++
       ("- シート数: " ++ natStr (convert_sheets_fold cfg wb (0, 0)).length) ++
       "\n" ++ "- 変換日時: ",
     joinTail ("\n") (creatorLines props ++ [""]) ++
       joinTail ("\n")
         ((if cfg.createToc then
             [generate_toc (convert_sheets_fold cfg wb (0, 0)), "\n---\n"]
           else []) ++
          (convert_sheets_fold cfg wb (0, 0)).enum.flatMap
            (merge_section (analyze_references (wb.map Prod.fst)))),
     fun now => ?_⟩
  unfold convert_markdown merge_sheets
  dsimp only
  cases htoc : cfg.createToc with
  | false =>
    simp only [htoc, Bool.false_eq_true, if_false, List.cons_append,
      List.nil_append, pyJoin_cons, generate_header_split]
    simp only [String.append_assoc]
  | true =>
    simp only [htoc, if_true, List.cons_append, List.nil_append,
      List.append_assoc, pyJoin_cons, generate_header_split]
    simp only [String.append_assoc]

/-! ### C8: formula cells with null computed values -/

/-- Substring containment, used to state that a fragment appears in a
rendered Markdown string. -/
def strContains (s t : String) : Prop := ∃ pre post, s = pre ++ t ++ post

/-- Containment is preserved by prepending. -/
theorem strContains_append_left (u s t : String) (h : strContains s t) :
    strContains (u ++ s) t := by
  obtain ⟨pre, post, rfl⟩ := h
  exact ⟨u ++ pre, post, by simp [String.append_assoc]⟩

/-- Every element of the join tail appears in it, preceded by the
separator. -/
theorem joinTail_contains (sep : String) (xs : List String) (x : String)
    (hx : x ∈ xs) : ∃ pre post, joinTail sep xs = pre ++ (sep ++ x) ++ post := by
  induction xs with
  | nil => cases hx
  | cons y ys ih =>
    rcases List.mem_cons.mp hx with rfl | hmem
    · exact ⟨"", joinTail sep ys, by
        rw [joinTail, String.empty_append]⟩
    · obtain ⟨pre, post, h⟩ := ih hmem
      exact ⟨sep ++ y ++ pre, post, by
        rw [joinTail, h]
        simp [String.append_assoc]⟩

/-- Each captured formula's note line appears in the generated formula
notes block. -/
theorem formula_notes_contain (formulas : List ((ℕ × ℕ) × (String × String)))
    (e : (ℕ × ℕ) × (String × String)) (he : e ∈ formulas) :
    strContains (generate_formula_notes formulas)
      ("- セル " ++ e.2.1 ++ ": `" ++ e.2.2 ++ "`") := by
  unfold generate_formula_notes
  rw [pyJoin_cons]
  have hL : ("- セル " ++ e.2.1 ++ ": `" ++ e.2.2 ++ "`") ∈
      formulas.map (fun f => "- セル " ++ f.2.1 ++ ": `" ++ f.2.2 ++ "`") :=
    List.mem_map_of_mem _ he
  obtain ⟨pre, post, hjt⟩ := joinTail_contains ("\n") _ _ hL
  exact ⟨"**【数式備考】**" ++ pre ++ "\n", post, by
    rw [hjt]
    simp [String.append_assoc]⟩

/-- Lemma: `_format_cell_value` leaves string values untouched. -/
theorem format_cell_value_str (s : String) (cell : Cell) :
    format_cell_value (.str s) cell = .str s := rfl

/-- A formula cell whose computed value is null displays the escaped
literal formula text. -/
theorem displayedCell_formula (sheet sv : SheetModel) (r c : ℕ)
    (hf : (sheet.cellAt r c).dataType = "f")
    (hnull : (sv.cellAt r c).value = CellVal.null) :
    displayedCell sheet (some sv) r c =
      escapeCellText (pyStr (sheet.cellAt r c).value) := by
  unfold displayedCell
  dsimp only
  rw [hnull, hf]
  by_cases hs : pyStr (sheet.cellAt r c).value = ""
  · simp [hs]
    rfl
  · simp [hs, format_cell_value_str]
    rfl

/-- The formula of a formula cell inside the range is captured with its
coordinate and 0-based grid position. -/
theorem captured_formula_mem (sheet : SheetModel) (r1 c1 r2 c2 r c : ℕ)
    (hr1 : r1 ≤ r) (hr2 : r ≤ r2) (hc1 : c1 ≤ c) (hc2 : c ≤ c2)
    (hf : (sheet.cellAt r c).dataType = "f") :
    ((r - r1, c - c1), (coordStr c r, pyStr (sheet.cellAt r c).value)) ∈
      buildFormulas sheet r1 c1 r2 c2 := by
  unfold buildFormulas
  rw [List.mem_flatMap]
  refine ⟨r - r1, List.mem_range.mpr (by omega), ?_⟩
  rw [List.mem_filterMap]
  refine ⟨c - c1, List.mem_range.mpr (by omega), ?_⟩
  have h1 : r1 + (r - r1) = r := by omega
  have h2 : c1 + (c - c1) = c := by omega
  rw [h1, h2]
  unfold capturedFormula
  rw [if_pos hf]
  rfl

/-- The option-grid row built for row `r` of the range. -/
def optRowFor (sheet : SheetModel) (sv : Option SheetModel) (c1 c2 r : ℕ) :
    List (Option String) :=
  (List.range' c1 (c2 - c1 + 1)).map fun cc =>
    if displayedCell sheet sv r cc = "" then none else some (displayedCell sheet sv r cc)

/-- The option grid is the row-wise image of `optRowFor`. -/
theorem toOptGrid_buildData (sheet : SheetModel) (sv : Option SheetModel)
    (r1 c1 r2 c2 : ℕ) :
    toOptGrid (buildData sheet sv r1 c1 r2 c2) =
      (List.range' r1 (r2 - r1 + 1)).map (optRowFor sheet sv c1 c2) := by
  unfold toOptGrid buildData optRowFor
  rw [List.map_map]
  apply List.map_congr_left
  intro rr _
  rw [Function.comp_apply, List.map_map]
  rfl

/-- C8: for a cell inside the rendered range that is formula-typed in the
formula view and null in the value view, (a) the displayed value in the
data grid is the escaped literal formula text, (b) the (coordinate,
formula) pair is captured, (c) the escaped formula text survives row/column
dropping into the final header-and-body grid the Markdown table serializes,
and (d) when formula display is enabled (the default), the formula-notes
line for that cell appears in the rendered range output. -/
theorem formula_cell_rendering (cfg : Config) (sheet sv : SheetModel)
    (rng : String) (c1 r1 c2 r2 r c : ℕ)
    (hrng : parseRange rng = some (c1, r1, c2, r2))
    (hr1 : r1 ≤ r) (hr2 : r ≤ r2) (hc1 : c1 ≤ c) (hc2 : c ≤ c2)
    (hf : (sheet.cellAt r c).dataType = "f")
    (hnull : (sv.cellAt r c).value = CellVal.null)
    (hne : escapeCellText (pyStr (sheet.cellAt r c).value) ≠ "") :
    displayedCell sheet (some sv) r c =
      escapeCellText (pyStr (sheet.cellAt r c).value) ∧
    ((r - r1, c - c1), (coordStr c r, pyStr (sheet.cellAt r c).value)) ∈
      buildFormulas sheet r1 c1 r2 c2 ∧
    (∃ row ∈ (headerBody cfg (cleanedGrid sheet (some sv) r1 c1 r2 c2)
        (rangeKeepCols sheet (some sv) r1 c1 r2 c2).length).1 ::
        (headerBody cfg (cleanedGrid sheet (some sv) r1 c1 r2 c2)
          (rangeKeepCols sheet (some sv) r1 c1 r2 c2).length).2,
      escapeCellText (pyStr (sheet.cellAt r c).value) ∈ row) ∧
    (cfg.showFormulas = true →
      strContains (convert_range_to_markdown cfg sheet rng (some sv))
        ("- セル " ++ coordStr c r ++ ": `" ++
          pyStr (sheet.cellAt r c).value ++ "`")) := by
  have hdisp := displayedCell_formula sheet sv r c hf hnull
  have hcap := captured_formula_mem sheet r1 c1 r2 c2 r c hr1 hr2 hc1 hc2 hf
  -- the escaped formula text and the option-grid row holding it
  set F := escapeCellText (pyStr (sheet.cellAt r c).value) with hF
  have hrowmem : optRowFor sheet (some sv) c1 c2 r ∈
      toOptGrid (buildData sheet (some sv) r1 c1 r2 c2) := by
    rw [toOptGrid_buildData]
    exact List.mem_map_of_mem _ (List.mem_range'_1.mpr ⟨hr1, by omega⟩)
  have hentry : (optRowFor sheet (some sv) c1 c2 r).get? (c - c1) = some (some F) := by
    unfold optRowFor
    rw [List.get?_eq_getElem?, List.getElem?_map]
    have hlt : c - c1 < c2 - c1 + 1 := by omega
    rw [List.getElem?_range' _ _ hlt]
    have hcc : c1 + 1 * (c - c1) = c := by omega
    rw [hcc, Option.map_some']
    rw [hdisp, if_neg hne]
  have hsome : some F ∈ optRowFor sheet (some sv) c1 c2 r :=
    List.get?_mem hentry
  have hg1mem : optRowFor sheet (some sv) c1 c2 r ∈
      droppedRows sheet (some sv) r1 c1 r2 c2 := by
    unfold droppedRows filteredRows
    rw [List.mem_filter]
    refine ⟨hrowmem, ?_⟩
    have hall : (optRowFor sheet (some sv) c1 c2 r).all Option.isNone = false :=
      List.all_eq_false.mpr ⟨some F, hsome, by simp⟩
    rw [hall]
    rfl
  have hwidth : ((buildData sheet (some sv) r1 c1 r2 c2).headD []).length =
      c2 - c1 + 1 := by
    unfold buildData
    rw [show List.range' r1 (r2 - r1 + 1) = r1 :: List.range' (r1 + 1) (r2 - r1)
          from List.range'_succ r1 (r2 - r1) 1,
        List.map_cons]
    simp
  have hkeep : (c - c1) ∈ rangeKeepCols sheet (some sv) r1 c1 r2 c2 := by
    unfold rangeKeepCols keepColIdx
    rw [hwidth, List.mem_filter]
    refine ⟨List.mem_range.mpr (by omega), ?_⟩
    rw [List.any_eq_true]
    refine ⟨optRowFor sheet (some sv) c1 c2 r, hg1mem, ?_⟩
    rw [hentry]
    rfl
  have hR1 : F ∈ selectCols (rangeKeepCols sheet (some sv) r1 c1 r2 c2)
      (optRowFor sheet (some sv) c1 c2 r) := by
    unfold selectCols
    rw [List.mem_map]
    refine ⟨c - c1, hkeep, ?_⟩
    rw [hentry]
    rfl
  have hg2 : selectCols (rangeKeepCols sheet (some sv) r1 c1 r2 c2)
      (optRowFor sheet (some sv) c1 c2 r) ∈
      cleanedGrid sheet (some sv) r1 c1 r2 c2 :=
    List.mem_map_of_mem _ hg1mem
  refine ⟨hdisp, hcap, ?_, ?_⟩
  · -- (c) survival into the final header/body grid
    unfold headerBody
    by_cases hd : cfg.detectHeader && !(cleanedGrid sheet (some sv) r1 c1 r2 c2).isEmpty
    · rw [if_pos hd]
      rcases hcg : cleanedGrid sheet (some sv) r1 c1 r2 c2 with _ | ⟨h0, t0⟩
      · rw [hcg] at hg2
        cases hg2
      · rw [hcg] at hg2
        exact ⟨selectCols (rangeKeepCols sheet (some sv) r1 c1 r2 c2)
          (optRowFor sheet (some sv) c1 c2 r), by simpa using hg2, hR1⟩
    · rw [if_neg hd]
      exact ⟨selectCols (rangeKeepCols sheet (some sv) r1 c1 r2 c2)
        (optRowFor sheet (some sv) c1 c2 r), List.mem_cons_of_mem _ hg2, hR1⟩
  · -- (d) the formula-notes line appears in the rendered output
    intro hshow
    have hdata : (buildData sheet (some sv) r1 c1 r2 c2).isEmpty = false := by
      unfold buildData
      rw [show List.range' r1 (r2 - r1 + 1) = r1 :: List.range' (r1 + 1) (r2 - r1)
            from List.range'_succ r1 (r2 - r1) 1,
          List.map_cons]
      rfl
    have hlen1 : (droppedRows sheet (some sv) r1 c1 r2 c2).length ≠ 0 := by
      intro h0
      rw [List.length_eq_zero.mp h0] at hg1mem
      cases hg1mem
    have hlen2 : (rangeKeepCols sheet (some sv) r1 c1 r2 c2).length ≠ 0 := by
      intro h0
      rw [List.length_eq_zero.mp h0] at hkeep
      cases hkeep
    have hform : (buildFormulas sheet r1 c1 r2 c2).isEmpty = false := by
      have := List.ne_nil_of_mem hcap
      cases hfb : buildFormulas sheet r1 c1 r2 c2 with
      | nil => exact absurd hfb this
      | cons a l => rfl
    have hnotes := formula_notes_contain (buildFormulas sheet r1 c1 r2 c2) _ hcap
    unfold convert_range_to_markdown
    rw [hrng]
    unfold convert_cells
    dsimp only
    rw [hdata]
    simp only [Bool.false_eq_true, if_false]
    simp [hlen1, hlen2, hform, hshow]
    have hcontains : strContains
        (gridToMarkdown
            (headerBody cfg (cleanedGrid sheet (some sv) r1 c1 r2 c2)
              (rangeKeepCols sheet (some sv) r1 c1 r2 c2).length).1
            (headerBody cfg (cleanedGrid sheet (some sv) r1 c1 r2 c2)
              (rangeKeepCols sheet (some sv) r1 c1 r2 c2).length).2 ++ "\n\n" ++
          generate_formula_notes (buildFormulas sheet r1 c1 r2 c2))
        ("- セル " ++ coordStr c r ++ ": `" ++
          pyStr (sheet.cellAt r c).value ++ "`") :=
      strContains_append_left _ _ _ hnotes
    by_cases hsum : cfg.generateSummary = true
    · rw [if_pos hsum]
      exact strContains_append_left _ _ _ hcontains
    · rw [if_neg hsum]
      exact hcontains

/-- A formula-view sheet holding a header cell and a formula cell. -/
def formulaSheet : SheetModel :=
  { rows := [[{ value := .str ("h") }],
             [{ value := .str ("=SUM(A1:A2)"), dataType := "f" }]] }

/-- The value view of `formulaSheet`, where the formula cell's computed
value is null (workbook saved without recalculation). -/
def formulaValues : SheetModel :=
  { rows := [[{ value := .str ("h") }], [{}]] }

/-- C8 witness: the rendering statement applied to a concrete formula cell
with a null computed value, with formula display at its default. -/
theorem formula_cell_rendering_witness :
    strContains (convert_range_to_markdown {} formulaSheet ("A1:A2") (some formulaValues))
      ("- セル " ++ coordStr 1 2 ++ ": `" ++
        pyStr (formulaSheet.cellAt 2 1).value ++ "`") :=
  (formula_cell_rendering {} formulaSheet formulaValues ("A1:A2") 1 1 1 2 2 1
    (by decide) (by decide) (by decide) (by decide) (by decide) (by decide)
    (by decide) (by decide)).2.2.2 rfl

/-! ### C10: formulas with `!` but no sheet-qualified reference token -/

/-- The claim-side notion of a sheet-qualified reference token occurring
somewhere in a formula: a nonempty sheet-name run (bare, or wrapped in
matching quotes) immediately followed by `!` and then an
uppercase-letters-then-digits cell address (a `:`-separated range tail,
when present, lies in `post`). -/
def hasRefToken (s : List Char) : Prop :=
  (∃ pre name u d post, name ≠ [] ∧ (∀ ch ∈ name, isNameChar ch) ∧
    u ≠ [] ∧ (∀ ch ∈ u, ch.isUpper) ∧ d ≠ [] ∧ (∀ ch ∈ d, ch.isDigit) ∧
    s = pre ++ name ++ '!' :: (u ++ (d ++ post))) ∨
  (∃ pre q name u d post, isQuoteChar q ∧ name ≠ [] ∧
    (∀ ch ∈ name, isNameChar ch) ∧
    u ≠ [] ∧ (∀ ch ∈ u, ch.isUpper) ∧ d ≠ [] ∧ (∀ ch ∈ d, ch.isDigit) ∧
    s = pre ++ q :: (name ++ q :: '!' :: (u ++ (d ++ post))))

/-- Dropping the length of `takeWhile` is `dropWhile`. -/
theorem drop_takeWhile_length (p : Char → Bool) (l : List Char) :
    l.drop (l.takeWhile p).length = l.dropWhile p := by
  induction l with
  | nil => rfl
  | cons x xs ih =>
    by_cases hp : p x <;>
      simp [List.takeWhile_cons, List.dropWhile_cons, hp, ih]

/-- A list is its `takeWhile` run followed by what the matcher drops. -/
theorem takeWhile_reassemble (p : Char → Bool) (l : List Char) :
    l = l.takeWhile p ++ l.drop (l.takeWhile p).length := by
  rw [drop_takeWhile_length]
  exact (List.takeWhile_append_dropWhile (p := p) (l := l)).symm

/-- A successful address parse decomposes its input as an uppercase run, a
digit run, and a remainder. -/
theorem parseAddr_decomp (r2 : List Char) (a : List Char)
    (h : parseAddr r2 = some a) :
    ∃ u d post, u ≠ [] ∧ (∀ ch ∈ u, ch.isUpper) ∧ d ≠ [] ∧
      (∀ ch ∈ d, ch.isDigit) ∧ r2 = u ++ (d ++ post) := by
  unfold parseAddr at h
  dsimp only at h
  split at h
  · cases h
  · split at h
    · cases h
    · rename_i hu hd
      refine ⟨r2.takeWhile Char.isUpper,
        (r2.drop (r2.takeWhile Char.isUpper).length).takeWhile Char.isDigit,
        (r2.drop (r2.takeWhile Char.isUpper).length).drop
          ((r2.drop (r2.takeWhile Char.isUpper).length).takeWhile Char.isDigit).length,
        ?_, fun ch hch => List.mem_takeWhile_imp hch,
        ?_, fun ch hch => List.mem_takeWhile_imp hch, ?_⟩
      · intro h0
        exact hu (by rw [h0]; rfl)
      · intro h0
        exact hd (by rw [h0]; rfl)
      · conv_lhs => rw [takeWhile_reassemble Char.isUpper r2]
        congr 1
        exact takeWhile_reassemble Char.isDigit _

/-- A token can be found one position further in. -/
theorem hasRefToken_cons (ch : Char) (s : List Char) (h : hasRefToken s) :
    hasRefToken (ch :: s) := by
  rcases h with ⟨pre, name, u, d, post, h1, h2, h3, h4, h5, h6, rfl⟩ |
    ⟨pre, q, name, u, d, post, h0, h1, h2, h3, h4, h5, h6, rfl⟩
  · exact Or.inl ⟨ch :: pre, name, u, d, post, h1, h2, h3, h4, h5, h6, rfl⟩
  · exact Or.inr ⟨ch :: pre, q, name, u, d, post, h0, h1, h2, h3, h4, h5, h6, rfl⟩

/-- A successful anchored match exhibits a reference token at the head. -/
theorem matchAt_hasRefToken (l : List Char) (x : List Char × List Char)
    (h : matchAt l = some x) : hasRefToken l := by
  cases l with
  | nil => cases h
  | cons c rest =>
    unfold matchAt at h
    dsimp only at h
    by_cases hq : isQuoteChar c
    · rw [if_pos hq] at h
      split at h
      · cases h
      · rename_i hname
        split at h
        case _ c2 r2 heq =>
          split at h
          · rename_i hc2
            cases hpa : parseAddr r2 with
            | none =>
              rw [hpa] at h
              cases h
            | some a =>
              obtain ⟨u, d, post, hu, hu2, hd, hd2, hr2⟩ := parseAddr_decomp r2 a hpa
              refine Or.inr ⟨[], c, rest.takeWhile isNameChar, u, d, post, hq, ?_,
                fun ch hch => List.mem_takeWhile_imp hch, hu, hu2, hd, hd2, ?_⟩
              · intro h0
                exact hname (by rw [h0]; rfl)
              · rw [List.nil_append]
                have := takeWhile_reassemble isNameChar rest
                rw [heq, hc2] at this
                rw [show (c :: rest : List Char) = c :: (rest.takeWhile isNameChar ++
                      c :: '!' :: r2) by rw [← this]]
                rw [hr2]
          · cases h
        case _ hne2 =>
          cases h
    · rw [if_neg hq] at h
      by_cases hn : isNameChar c
      · rw [if_pos hn] at h
        split at h
        case _ r2 heq =>
          cases hpa : parseAddr r2 with
          | none =>
            rw [hpa] at h
            cases h
          | some a =>
            obtain ⟨u, d, post, hu, hu2, hd, hd2, hr2⟩ := parseAddr_decomp r2 a hpa
            refine Or.inl ⟨[], (c :: rest).takeWhile isNameChar, u, d, post, ?_,
              fun ch hch => List.mem_takeWhile_imp hch, hu, hu2, hd, hd2, ?_⟩
            · rw [List.takeWhile_cons, if_pos hn]
              exact List.cons_ne_nil _ _
            · rw [List.nil_append]
              have := takeWhile_reassemble isNameChar (c :: rest)
              rw [heq] at this
              rw [← hr2]
              exact this
        case _ hne2 =>
          cases h
      · rw [if_neg hn] at h
        cases h

/-- A leftmost search hit exhibits a reference token somewhere in the
string. -/
theorem findRef_hasRefToken (l : List Char) (x : List Char × List Char)
    (h : findRef l = some x) : hasRefToken l := by
  induction l with
  | nil => cases h
  | cons c rest ih =>
    unfold findRef at h
    cases hm : matchAt (c :: rest) with
    | some r => exact matchAt_hasRefToken _ _ hm
    | none =>
      rw [hm] at h
      exact hasRefToken_cons c rest (ih h)

/-- C10: the analyzer records an edge only for formulas that actually
contain a sheet-qualified reference token; in particular a formula
containing `!` but only non-matching text after it — such as the absolute
reference `=Sheet1!$A$1` — yields no edge. -/
theorem reference_edges_require_token :
    (∀ (wb : List SheetModel) (e : CrossRef), e ∈ analyze_references wb →
      hasRefToken e.formula.toList) ∧
    parse_cross_sheet_reference ("=Sheet1!$A$1") ("Summary") ("B1") = none := by
  constructor
  · intro wb e he
    unfold analyze_references at he
    rw [List.mem_flatMap] at he
    obtain ⟨sheet, _, he⟩ := he
    rw [List.mem_filterMap] at he
    obtain ⟨fc, _, he⟩ := he
    by_cases hb : containsChar fc.2 ('!')
    · rw [if_pos hb] at he
      unfold parse_cross_sheet_reference at he
      cases hfr : findRef fc.2.toList with
      | none =>
        rw [hfr] at he
        cases he
      | some p =>
        obtain ⟨nm, rg⟩ := p
        rw [hfr] at he
        simp only [Option.some.injEq] at he
        rw [← he]
        exact findRef_hasRefToken _ _ hfr
    · rw [if_neg hb] at he
      cases he
  · decide

/-- A one-sheet workbook with one cross-sheet formula cell. -/
def refSheet : SheetModel :=
  { title := "Summary",
    rows := [[{ value := .str ("=Data!B2"), dataType := "f" }]] }

/-- C10 witness: the membership statement applied to the concrete edge the
analyzer records for `=Data!B2`. -/
theorem reference_edges_require_token_witness :
    hasRefToken (("=Data!B2" : String)).toList :=
  reference_edges_require_token.1 [refSheet]
    ⟨"Summary", "A1", "=Data", "B2", "=Data!B2"⟩ (by decide)

end ExcelToMd
